import Mathlib

/-!
Shallow embedding of the bftt game server (src/game.rs, src/election.rs,
src/relay_server.rs) for checking the natural-language specification.

Rust `HashMap<String, T>` is embedded as an association list
`List (String × T)` with first-match lookup and replace-or-append insert;
`HashSet<String>` as a `List String` with guarded insert.  Machine integers
(`u32`, `u64`, `usize`) are embedded as `Nat`; the only subtraction sites
are guarded by validations in the source, noted where they appear.
Randomness (`ThreadRng` sampling) is embedded by threading an explicit list
of pre-drawn positions (`rolls`); an operation that would keep rejection
sampling past the end of the list returns `none`.  Wall-clock time is an
explicit `now : Nat` argument.
-/

namespace Bftt

/-- First-match lookup in an association list (`HashMap::get`). -/
def alookup {α : Type} : List (String × α) → String → Option α
  | [], _ => none
  | (k', v') :: rest, k => if k' = k then some v' else alookup rest k

/-- Replace-or-append insert (`HashMap::insert`). -/
def ainsert {α : Type} : List (String × α) → String → α → List (String × α)
  | [], k, v => [(k, v)]
  | (k', v') :: rest, k, v =>
    if k' = k then (k, v) :: rest else (k', v') :: ainsert rest k v

/-- Remove every binding of a key (`HashMap::remove`, keys are unique in built states). -/
def aerase {α : Type} (m : List (String × α)) (k : String) : List (String × α) :=
  m.filter (fun kv => !(kv.1 == k))

/-- Update the value at a key if present (`HashMap::get_mut` used at one site). -/
def aupdate {α : Type} : List (String × α) → String → (α → α) → List (String × α)
  | [], _, _ => []
  | (k', v') :: rest, k, f =>
    if k' = k then (k', f v') :: rest else (k', v') :: aupdate rest k f

/-- Guarded insert for `HashSet<String>`. -/
def sinsert (s : List String) (k : String) : List String :=
  if k ∈ s then s else k :: s

/-- Removal for `HashSet<String>`. -/
def serase (s : List String) (k : String) : List String :=
  s.filter (fun x => !(x == k))

theorem alookup_ainsert_self {α : Type} (m : List (String × α)) (k : String) (v : α) :
    alookup (ainsert m k v) k = some v := by
  induction m with
  | nil => simp [ainsert, alookup]
  | cons hd tl ih =>
    by_cases h : hd.1 = k
    · simp [ainsert, h, alookup]
    · simp [ainsert, h, alookup, ih]

theorem alookup_ainsert_ne {α : Type} (m : List (String × α)) (k k' : String) (v : α)
    (h : k ≠ k') : alookup (ainsert m k v) k' = alookup m k' := by
  induction m with
  | nil => simp [ainsert, alookup, h]
  | cons hd tl ih =>
    by_cases h2 : hd.1 = k
    · simp [ainsert, h2, alookup, h]
    · simp [ainsert, h2, alookup, ih]

theorem alookup_ainsert_isSome {α : Type} (m : List (String × α)) (k k' : String) (v : α) :
    (alookup (ainsert m k v) k').isSome = true ↔
      (k' = k ∨ (alookup m k').isSome = true) := by
  by_cases h : k' = k
  · subst h; simp [alookup_ainsert_self]
  · rw [alookup_ainsert_ne m k k' v (fun e => h e.symm)]
    simp [h]

theorem alookup_aupdate_isSome {α : Type} (m : List (String × α)) (k k' : String)
    (f : α → α) : (alookup (aupdate m k f) k').isSome = (alookup m k').isSome := by
  induction m with
  | nil => simp [aupdate]
  | cons hd tl ih =>
    obtain ⟨k0, v0⟩ := hd
    by_cases h : k0 = k
    · subst h
      by_cases h2 : k0 = k' <;> simp [aupdate, alookup, h2]
    · by_cases h2 : k0 = k'
      · subst h2; simp [aupdate, alookup, h, ih]
      · simp [aupdate, alookup, h, h2, ih]

theorem mem_sinsert (s : List String) (k u : String) :
    u ∈ sinsert s k ↔ (u = k ∨ u ∈ s) := by
  by_cases h : k ∈ s
  · simp only [sinsert, if_pos h]
    constructor
    · exact fun hu => Or.inr hu
    · rintro (rfl | hu) <;> [exact h; exact hu]
  · simp [sinsert, if_neg h, List.mem_cons]

theorem mem_serase (s : List String) (k u : String) :
    u ∈ serase s k ↔ (u ∈ s ∧ u ≠ k) := by
  simp [serase, List.mem_filter]

/-! ## src/game.rs: positions, players, boards -/

def USIZE_MAX : Nat := 2 ^ 64 - 1

structure Pos where
  x : Nat
  y : Nat
deriving DecidableEq, Repr

/-- `Pos::xy_distances`: per-axis absolute differences. -/
def Pos.xy_distances (a b : Pos) : Pos :=
  { x := if a.x < b.x then b.x - a.x else a.x - b.x,
    y := if a.y < b.y then b.y - a.y else a.y - b.y }

/-- `Pos::key`: the `"x,y"` string used as board map key. -/
def Pos.key (p : Pos) : String :=
  toString p.x ++ "," ++ toString p.y

structure Player where
  user_id : String
  game_id : String
  lives : Nat
  action_points : Nat
  pos : Pos
  range : Nat
deriving DecidableEq, Repr

def TURN_TIME_SECS : Nat := 2
def MAX_PLAYERS : Nat := 13
def BOARD_SIZE : Nat := 10
def INIT_RANGE : Nat := 2
def INIT_ACTION_POINTS : Nat := 1
def INIT_LIVES : Nat := 3
def MOVE_COST : Nat := 1
def ATTACK_LIVES_EFFECT : Nat := 1
def ATTACK_COST : Nat := 1
def RANGE_UPGRADE_COST : Nat := 3
def HEAL_COST : Nat := 3

def Player.new (user_id game_id : String) : Player :=
  { user_id, game_id, lives := INIT_LIVES, action_points := INIT_ACTION_POINTS,
    pos := { x := USIZE_MAX, y := USIZE_MAX }, range := INIT_RANGE }

def Player.is_alive (p : Player) : Except String Unit :=
  if p.lives < 1 then .error (p.user_id ++ " has no life") else .ok ()

def Player.is_dead (p : Player) : Except String Unit :=
  if p.lives > 0 then .error (p.user_id ++ " is alive") else .ok ()

def Player.has_action_points (p : Player) (required : Nat) : Except String Unit :=
  if p.action_points < required then .error "insufficient action points" else .ok ()

def Player.moveable_in_prog (p : Player) (pos : Pos) : Except String Unit :=
  match p.has_action_points 1 with
  | .error e => .error e
  | .ok _ =>
    let dist := Pos.xy_distances p.pos pos
    if dist.x > p.range ∨ dist.y > p.range then .error "move out of range" else .ok ()

structure Board (T : Type) where
  map : List (String × T)
  size : Nat
deriving Repr, DecidableEq

def Board.new (T : Type) (size : Nat) : Board T := { map := [], size }

def Board.in_bounds {T : Type} (b : Board T) (pos : Pos) (check_occupied : Bool) :
    Except String Unit :=
  if pos.x ≥ b.size ∨ pos.y ≥ b.size then .error "out of range"
  else if check_occupied ∧ (alookup b.map pos.key).isSome then .error "space is occupied"
  else .ok ()

structure PlayersAliveDead where
  alive : List String
  dead : List String
deriving DecidableEq, Repr

def PlayersAliveDead.new : PlayersAliveDead := { alive := [], dead := [] }

def PlayersAliveDead.set_alive (s : PlayersAliveDead) (id : String) : PlayersAliveDead :=
  { alive := sinsert s.alive id, dead := serase s.dead id }

def PlayersAliveDead.set_dead (s : PlayersAliveDead) (id : String) : PlayersAliveDead :=
  { dead := sinsert s.dead id, alive := serase s.alive id }

def PlayersAliveDead.alive_len (s : PlayersAliveDead) : Nat := s.alive.length

/-! ## src/game.rs: the in-game `Election` used for cursings
(distinct from the preferential election in src/election.rs, embedded later;
renamed `CurseElection` here to avoid the name clash). -/

structure CurseElection where
  name : String
  candidates : List String
  voters : List String
  vote_count : List (String × List String)
  voter_vote : List (String × String)
deriving Repr, DecidableEq

def CurseElection.new (name : String) : CurseElection :=
  { name, candidates := [], voters := [], vote_count := [], voter_vote := [] }

/-- `Election::remove_vote` in game.rs; the source always returns `Ok(())`. -/
def CurseElection.remove_vote (e : CurseElection) (voter_id : String) : CurseElection :=
  let vc := match alookup e.voter_vote voter_id with
    | some old_c_id => aupdate e.vote_count old_c_id (fun v => serase v voter_id)
    | none => e.vote_count
  { e with vote_count := vc, voter_vote := aerase e.voter_vote voter_id }

/-- `Election::vote` in game.rs (single-candidate vote). -/
def CurseElection.vote (e : CurseElection) (voter_id candidate_id : String) :
    Except String CurseElection :=
  if voter_id ∉ e.voters then .error ("player cannot vote in " ++ e.name)
  else if candidate_id ∉ e.candidates then
    .error (candidate_id ++ " is not a candidate in " ++ e.name)
  else
    let vc := match alookup e.voter_vote voter_id with
      | some old_c_id => aupdate e.vote_count old_c_id (fun v => serase v voter_id)
      | none => e.vote_count
    let vc := match alookup vc candidate_id with
      | none => ainsert vc candidate_id []
      | some _ => vc
    let vc := aupdate vc candidate_id (fun count => sinsert count voter_id)
    .ok { e with vote_count := vc,
                 voter_vote := ainsert e.voter_vote voter_id candidate_id }

/-- `Election::convert_voter` in game.rs; the source always returns `Ok(())`. -/
def CurseElection.convert_voter (e : CurseElection) (voter_id : String) : CurseElection :=
  let e1 := { e with voters := serase e.voters voter_id,
                     candidates := sinsert e.candidates voter_id }
  match alookup e1.voter_vote voter_id with
  | some candidate_id =>
    { e1 with voter_vote := aerase e1.voter_vote voter_id,
              vote_count := aupdate e1.vote_count candidate_id (fun vc => serase vc voter_id) }
  | none => { e1 with voter_vote := aerase e1.voter_vote voter_id }

/-- `Election::convert_candidate` in game.rs. -/
def CurseElection.convert_candidate (e : CurseElection) (candidate_id : String) : CurseElection :=
  { e with candidates := serase e.candidates candidate_id,
           voters := sinsert e.voters candidate_id,
           vote_count := aerase e.vote_count candidate_id }

def CurseElection.get_voter_vote (e : CurseElection) (voter_id : String) : Option String :=
  alookup e.voter_vote voter_id

/-- `Election::reset` in game.rs. -/
def CurseElection.reset (e : CurseElection) : CurseElection :=
  { e with vote_count := [], voter_vote := [] }

/-- The scan inside `Election::redeem`: highest-voted candidates with ≥ 1 vote. -/
def CurseElection.redeem_loop : List (String × List String) → Nat → List String →
    Nat × List String
  | [], len, res => (len, res)
  | (k, v) :: rest, len, res =>
    if v.length = len then CurseElection.redeem_loop rest len (sinsert res k)
    else if v.length > len then CurseElection.redeem_loop rest v.length (sinsert [] k)
    else CurseElection.redeem_loop rest len res

/-- `Election::redeem` in game.rs: winners plus the reset election. -/
def CurseElection.redeem (e : CurseElection) : List String × CurseElection :=
  ((CurseElection.redeem_loop e.vote_count 1 []).2, e.reset)

/-! ## src/game.rs: game state and operations -/

inductive GamePhase
  | Init
  | InProg
  | End
deriving DecidableEq, Repr

inductive InitPosConfig
  | Random
  | Manual
deriving DecidableEq, Repr

inductive ConfigGameOp
  | TurnTimeSecs (v : Nat)
  | MaxPlayers (v : Nat)
  | BoardSize (v : Nat)
  | InitLives (v : Nat)
  | InitRange (v : Nat)
  | InitActPts (v : Nat)
  | InitPos (v : InitPosConfig)
deriving DecidableEq, Repr

structure GameConfig where
  turn_time_secs : Nat
  max_players : Nat
  init_action_points : Nat
  init_lives : Nat
  init_range : Nat
  init_pos : InitPosConfig
deriving Repr, DecidableEq

def GameConfig.new : GameConfig :=
  { init_range := INIT_RANGE, max_players := MAX_PLAYERS,
    init_action_points := INIT_ACTION_POINTS, init_lives := INIT_LIVES,
    init_pos := InitPosConfig.Random, turn_time_secs := TURN_TIME_SECS }

structure Game where
  game_id : String
  phase : GamePhase
  host_user_id : Option String
  players : List (String × Player)
  players_alive_dead : PlayersAliveDead
  board : Board String
  object_board : Board (List (String × Nat))
  turn_end_unix : Nat
  config : GameConfig
  curse_election : CurseElection
deriving Repr, DecidableEq

inductive InsertPlayerResult
  | Joined
  | Rejoined
deriving DecidableEq, Repr

def Game.new (game_id : String) (size : Nat) : Game :=
  { phase := GamePhase.Init, game_id, host_user_id := none, players := [],
    players_alive_dead := PlayersAliveDead.new,
    board := Board.new String size,
    object_board := Board.new (List (String × Nat)) size,
    turn_end_unix := 0, config := GameConfig.new,
    curse_election := CurseElection.new "cursings" }

/-- The rejection-sampling loop in `Game::randomly_position`; `rolls` are the
successive draws of the coordinate die, `none` means the supplied entropy ran out
(the source would keep sampling). -/
def randomly_position_loop (player : Player) (board : Board String) :
    List Pos → Option (Player × Board String × List Pos)
  | [] => none
  | pos :: rest =>
    if (alookup board.map pos.key).isSome then randomly_position_loop player board rest
    else some ({ player with pos },
               { board with map := ainsert board.map pos.key player.user_id }, rest)

/-- `Game::randomly_position`: vacate the player's current cell, then sample. -/
def randomly_position (player : Player) (board : Board String) (rolls : List Pos) :
    Option (Player × Board String × List Pos) :=
  randomly_position_loop player { board with map := aerase board.map player.pos.key } rolls

/-- The optional random placement step of `Game::insert_player`. -/
def Game.init_place (g : Game) (player : Player) (rolls : List Pos) :
    Option (Player × Board String × List Pos) :=
  if g.config.init_pos = InitPosConfig.Random then
    randomly_position player g.board rolls
  else some (player, g.board, rolls)

/-- `Game::insert_player`. -/
def Game.insert_player (g : Game) (user_id : String) (rolls : List Pos) :
    Option (Except String (InsertPlayerResult × Game × List Pos)) :=
  if (alookup g.players user_id).isSome then some (.ok (.Rejoined, g, rolls))
  else if g.phase = GamePhase.Init then
    if g.players.length = g.config.max_players then some (.error "game is at max capacity")
    else
      let player := { Player.new user_id g.game_id with
          lives := g.config.init_lives,
          action_points := g.config.init_action_points,
          range := g.config.init_range }
      match g.init_place player rolls with
      | none => none
      | some (player, board, rolls') =>
        some (.ok (.Joined,
          { g with board,
                   players := ainsert g.players user_id player,
                   players_alive_dead := g.players_alive_dead.set_alive user_id },
          rolls'))
  else some (.error "game cannot be joined")

/-- `Game::set_host`. -/
def Game.set_host (g : Game) (host_id : String) (rolls : List Pos) :
    Option (Except String Game) :=
  let g1 := { g with host_user_id := some host_id }
  match g1.insert_player host_id rolls with
  | none => none
  | some (.error e) => some (.error e)
  | some (.ok (_, g2, _)) => some (.ok g2)

/-- The repositioning loop of `Game::configure(InitPos(Random))`, collecting the
map of vacated cells. -/
def configure_reposition : List (String × Player) → Board String → List Pos →
    List (String × String) →
    Option (List (String × Player) × Board String × List Pos × List (String × String))
  | [], board, rolls, res => some ([], board, rolls, res)
  | (k, p) :: rest, board, rolls, res =>
    match randomly_position p board rolls with
    | none => none
    | some (p', board', rolls') =>
      let res' := if p.pos ≠ p'.pos then ainsert res p.pos.key p'.user_id else res
      match configure_reposition rest board' rolls' res' with
      | none => none
      | some (ps, b, r, m) => some ((k, p') :: ps, b, r, m)

/-- `Game::configure`. -/
def Game.configure (g : Game) (conf : ConfigGameOp) (rolls : List Pos) :
    Option (Except String (Option (List (String × String)) × Game × List Pos)) :=
  if ¬ (g.phase = GamePhase.Init) then
    some (.error "configuration must be during initialisation")
  else match conf with
  | .TurnTimeSecs v =>
    if v < 10 then some (.error "minimum of 10 seconds is required")
    else if v > 60 * 60 * 24 then some (.error "maximum of 24 hours is required")
    else some (.ok (none, { g with config := { g.config with turn_time_secs := v } }, rolls))
  | .MaxPlayers v =>
    if g.board.size * g.board.size < v then
      some (.error (toString v ++ " players won't fit in a " ++ toString g.board.size ++
        " by " ++ toString g.board.size ++ " board"))
    else if g.players.length > v then
      some (.error "Cannot set max players below current player count")
    else some (.ok (none, { g with config := { g.config with max_players := v } }, rolls))
  | .BoardSize v =>
    if g.config.max_players > v * v then
      some (.error (toString g.config.max_players ++ " players won't fit in a " ++
        toString v ++ " by " ++ toString v ++ " board"))
    else some (.ok (none, { g with board := { g.board with size := v } }, rolls))
  | .InitActPts v =>
    some (.ok (none, { g with
      players := g.players.map (fun kv => (kv.1, { kv.2 with action_points := v })),
      config := { g.config with init_action_points := v } }, rolls))
  | .InitLives v =>
    some (.ok (none, { g with
      players := g.players.map (fun kv => (kv.1, { kv.2 with lives := v })),
      config := { g.config with init_lives := v } }, rolls))
  | .InitRange v =>
    some (.ok (none, { g with
      players := g.players.map (fun kv => (kv.1, { kv.2 with range := v })),
      config := { g.config with init_range := v } }, rolls))
  | .InitPos v =>
    let g1 := { g with config := { g.config with init_pos := v } }
    match v with
    | .Random =>
      match configure_reposition g1.players g1.board rolls [] with
      | none => none
      | some (ps, b, r, res) =>
        let g2 := { g1 with players := ps, board := b }
        if ¬ res.isEmpty then some (.ok (some res, g2, r))
        else some (.ok (none, g2, r))
    | .Manual => some (.ok (none, g1, rolls))

/-- The placement loop of `Game::start_game`: players whose position is outside
the board are randomly placed. -/
def start_game_place : List (String × Player) → Board String → List Pos →
    Option (List (String × Player) × Board String × List Pos)
  | [], board, rolls => some ([], board, rolls)
  | (k, p) :: rest, board, rolls =>
    if p.pos.x ≥ board.size ∨ p.pos.y ≥ board.size then
      match randomly_position p board rolls with
      | none => none
      | some (p', board', rolls') =>
        match start_game_place rest board' rolls' with
        | none => none
        | some (ps, b, r) => some ((k, p') :: ps, b, r)
    else
      match start_game_place rest board rolls with
      | none => none
      | some (ps, b, r) => some ((k, p) :: ps, b, r)

/-- `Game::start_game`. -/
def Game.start_game (g : Game) (rolls : List Pos) (now : Nat) :
    Option (Except String Game) :=
  if ¬ (g.phase = GamePhase.Init) then some (.error "game already started")
  else if g.players.length < 4 then
    some (.error "4 or more players required to start a game")
  else match start_game_place g.players g.board rolls with
    | none => none
    | some (players', board', _) =>
      some (.ok { g with
        players := players', board := board',
        curse_election := { g.curse_election with candidates := g.players_alive_dead.alive },
        phase := GamePhase.InProg,
        turn_end_unix := now + g.config.turn_time_secs })

/-- `Game::is_end_phase`. -/
def Game.is_end_phase (g : Game) : Bool := g.phase = GamePhase.End

/-- `Game::check_in_prog`. -/
def Game.check_in_prog (g : Game) : Except String Unit :=
  if ¬ (g.phase = GamePhase.InProg) then .error "Game not in progress" else .ok ()

/-- `Game::replenish`. -/
def Game.replenish (g : Game) (now : Nat) :
    Except String (List (String × String × Nat) × Game) :=
  match g.check_in_prog with
  | .error e => .error e
  | .ok _ =>
    let (cursed, el) := g.curse_election.redeem
    let players' := g.players.map (fun kv =>
      if kv.2.user_id ∉ cursed ∧ kv.2.lives > 0 then
        (kv.1, { kv.2 with action_points := kv.2.action_points + 1 })
      else kv)
    let action_point_updates := players'.map (fun kv =>
      (kv.2.user_id, g.game_id, kv.2.action_points))
    .ok (action_point_updates,
      { g with players := players', curse_election := el.reset,
               turn_end_unix := now + g.config.turn_time_secs })

/-- `Game::clone_player`. -/
def Game.clone_player (g : Game) (player_id : String) : Except String Player :=
  match alookup g.players player_id with
  | some p => .ok p
  | none => .error ("player " ++ player_id ++ " not found")

/-- `Game::check_for_end_phase_move`. -/
def Game.check_for_end_phase_move (g : Game) (player_id : String) :
    Except String Game :=
  match alookup g.players player_id with
  | none => .error (player_id ++ " does not exist")
  | some p =>
    if p.lives = 0 then
      if g.players_alive_dead.alive_len = 1 then .ok { g with phase := GamePhase.End }
      else .ok g
    else .ok g

/-! ## src/game.rs: actions and events -/

structure AttackAction where
  target_user_id : String
  lives_effect : Nat
deriving DecidableEq, Repr

structure GiveAction where
  target_user_id : String
deriving DecidableEq, Repr

structure MoveAction where
  pos : Pos
deriving DecidableEq, Repr

structure RangeUpgradeAction where
  point_cost : Nat
deriving DecidableEq, Repr

structure HealAction where
  point_cost : Nat
deriving DecidableEq, Repr

structure ReviveAction where
  target_user_id : String
deriving DecidableEq, Repr

structure CurseAction where
  target_user_id : Option String
deriving DecidableEq, Repr

inductive ActionType
  | Attack (a : AttackAction)
  | Give (a : GiveAction)
  | Move (a : MoveAction)
  | RangeUpgrade (a : RangeUpgradeAction)
  | Heal (a : HealAction)
  | Revive (a : ReviveAction)
  | Curse (a : CurseAction)
deriving DecidableEq, Repr

/-- `MoveEvent`; the source fields `from`/`to` are Lean keywords, embedded as `from_`/`to_`. -/
structure MoveEvent where
  from_ : Pos
  to_ : Pos
deriving DecidableEq, Repr

inductive ActionTypeEvent
  | Attack (a : AttackAction)
  | Give (a : GiveAction)
  | Move (m : MoveEvent)
  | RangeUpgrade (a : RangeUpgradeAction)
  | Heal (a : HealAction)
  | Revive (a : ReviveAction)
  | Curse (a : CurseAction)
deriving DecidableEq, Repr

structure PlayerActionResponse where
  user_id : String
  game_id : String
  action : ActionTypeEvent
  phase : GamePhase
deriving Repr, DecidableEq

structure GameStateResult where
  action_point_updates : List (String × String × Nat)
  players_alive_dead : Option PlayersAliveDead
deriving Repr, DecidableEq

/-- The `*f -= 1` removal at the vacated cell inside `Game::game_action`; `u32`
subtraction is embedded as `Nat` subtraction (the source decrements a counter
the surrounding comment assumes to pre-exist). -/
def object_board_decrement (b : Board (List (String × Nat))) (key obj : String) :
    Board (List (String × Nat)) :=
  match alookup b.map key with
  | some v =>
    match alookup v obj with
    | some f => { b with map := ainsert b.map key (ainsert v obj (f - 1)) }
    | none => b
  | none => b

/-- The object-insertion branch of `Game::game_action`: a pre-existing counter is
incremented only while positive; a missing counter is created at 1. -/
def object_board_add (b : Board (List (String × Nat))) (key obj : String) :
    Board (List (String × Nat)) :=
  match alookup b.map key with
  | some v =>
    let v' := match alookup v obj with
      | some o => if o > 0 then ainsert v obj (o + 1) else v
      | none => ainsert v obj 1
    { b with map := ainsert b.map key v' }
  | none => { b with map := ainsert b.map key (ainsert [] obj 1) }

/-- The apply-object-to-player block of `Game::game_action` for a heart landing
on an occupied cell: revive bookkeeping for a dead player (no lives change in
the source), heal event for a living one. -/
def Game.heart_effects (g1 : Game) (player : Player) :
    ActionTypeEvent × Option PlayersAliveDead × Game :=
  if player.lives < 1 then
    let g2 := { g1 with
      players_alive_dead := g1.players_alive_dead.set_alive player.user_id }
    (ActionTypeEvent.Revive { target_user_id := player.user_id },
     some g2.players_alive_dead, g2)
  else (ActionTypeEvent.Heal { point_cost := HEAL_COST }, none, g1)

/-- `Game::game_action`.  The source mutates `&mut self` and can return an error
after having decremented the vacated cell, so the embedding returns the final
state alongside the result. -/
def Game.game_action (g : Game) (action : ActionTypeEvent) (obj : String) :
    Except String (List (String × List (String × Nat)) ×
      Option (PlayerActionResponse × GameStateResult)) × Game :=
  match action with
  | .Move m =>
    match g.object_board.in_bounds m.to_ false with
    | .error e => (.error e, g)
    | .ok _ =>
      let g1 := { g with object_board := object_board_decrement g.object_board m.from_.key obj }
      match alookup g1.board.map m.to_.key with
      | some pid =>
        match alookup g1.players pid with
        | none => (.error "player occupying space not found", g1)
        | some player =>
          if obj = "heart" then
            let (actionEv, padOpt, g2) := g1.heart_effects player
            let par : PlayerActionResponse :=
              { game_id := g2.game_id, user_id := player.user_id,
                phase := g2.phase, action := actionEv }
            let gsr : GameStateResult :=
              { action_point_updates := [], players_alive_dead := padOpt }
            (.ok (g2.object_board.map, some (par, gsr)), g2)
          else (.error ("unknown object " ++ obj), g1)
      | none =>
        let g2 := { g1 with object_board := object_board_add g1.object_board m.to_.key obj }
        (.ok (g2.object_board.map, none), g2)
  | _ => (.error "action type event not implemented!", g)

/-- Outcome of one `player_action` match arm: the event, the staged acting
player, the game after the arm's own mutations, the arm's action-point updates,
and the alive/dead snapshot if the arm produced one. -/
abbrev ArmResult :=
  Except String (ActionTypeEvent × Player × Game × List (String × String × Nat) ×
    Option PlayersAliveDead)

/-- The phase-dependent validation and AP-charge stage of the Move arm. -/
def Game.move_stage (g : Game) (player_flux : Player) (walk : MoveAction) :
    Except String Player :=
  if g.phase = GamePhase.InProg then
    match player_flux.is_alive with
    | .error e => .error e
    | .ok _ =>
      match player_flux.moveable_in_prog walk.pos with
      | .error e => .error e
      | .ok _ => .ok { player_flux with
          action_points := player_flux.action_points - MOVE_COST }
  else if g.phase = GamePhase.Init then
    if ¬ (g.config.init_pos = InitPosConfig.Manual) then
      .error "manual initial positioning must be enabled"
    else .ok player_flux
  else .ok player_flux

/-- The remove-from-current-position stage of the Move arm. -/
def Game.move_vacate (g : Game) (pf : Player) : Except String (Board String) :=
  if pf.pos.x ≠ USIZE_MAX then
    match alookup g.board.map pf.pos.key with
    | none => .error "player desynchronized"
    | some _ => .ok { g.board with map := aerase g.board.map pf.pos.key }
  else .ok g.board

/-- The `ActionType::Move` arm of `Game::player_action`. -/
def Game.arm_move (g : Game) (user_id : String) (player_flux : Player)
    (walk : MoveAction) : ArmResult :=
  match g.board.in_bounds walk.pos true with
  | .error e => .error e
  | .ok _ =>
    match g.move_stage player_flux walk with
    | .error e => .error e
    | .ok pf =>
      match g.move_vacate pf with
      | .error e => .error e
      | .ok board1 =>
        let action_event := ActionTypeEvent.Move { from_ := pf.pos, to_ := walk.pos }
        let pf2 := { pf with pos := walk.pos }
        let board2 := { board1 with map := ainsert board1.map pf2.pos.key user_id }
        .ok (action_event, pf2, { g with board := board2 }, [], none)

/-- The target-death block of the Attack arm: transfer the target's remaining
action points to the attacker, zero the target, mark it dead and end the game
when one player remains alive. -/
def Game.attack_resolve (g : Game) (pf tf : Player) :
    Player × Player × Game × List (String × String × Nat) × Option PlayersAliveDead :=
  if tf.lives = 0 then
    let pad1 := g.players_alive_dead.set_dead tf.user_id
    let el1 := g.curse_election.convert_candidate tf.user_id
    let pf2 := { pf with action_points := pf.action_points + tf.action_points }
    let tf2 := { tf with action_points := 0 }
    let phase1 := if pad1.alive_len = 1 then GamePhase.End else g.phase
    (pf2, tf2,
     { g with players_alive_dead := pad1, curse_election := el1, phase := phase1 },
     [(tf.user_id, g.game_id, 0)], some pad1)
  else (pf, tf, g, [], none)

/-- The `ActionType::Attack` arm of `Game::player_action`. -/
def Game.arm_attack (g : Game) (user_id : String) (player_flux : Player)
    (attack : AttackAction) : ArmResult :=
  match g.check_in_prog with
  | .error e => .error e
  | .ok _ =>
    if user_id = attack.target_user_id then .error "Stop hurting yourself"
    else match player_flux.is_alive with
    | .error e => .error e
    | .ok _ =>
      match g.clone_player attack.target_user_id with
      | .error e => .error e
      | .ok target_flux =>
        match target_flux.is_alive with
        | .error e => .error e
        | .ok _ =>
          match player_flux.moveable_in_prog target_flux.pos with
          | .error e => .error e
          | .ok _ =>
            if ¬ (attack.lives_effect = ATTACK_LIVES_EFFECT) then
              .error "attacking must take 1 life :'("
            else
              let pf := { player_flux with
                action_points := player_flux.action_points - ATTACK_COST }
              let tf := { target_flux with
                lives := target_flux.lives - ATTACK_LIVES_EFFECT }
              let (pf2, tf2, g1, apu, pad) := g.attack_resolve pf tf
              match g1.check_for_end_phase_move tf2.user_id with
              | .error e => .error e
              | .ok g2 =>
                let g3 := { g2 with players := ainsert g2.players tf2.user_id tf2 }
                .ok (ActionTypeEvent.Attack
                      { lives_effect := attack.lives_effect,
                        target_user_id := attack.target_user_id },
                     pf2, g3, apu, pad)

/-- The `ActionType::Give` arm of `Game::player_action`. -/
def Game.arm_give (g : Game) (user_id : String) (player_flux : Player)
    (give : GiveAction) : ArmResult :=
  match g.check_in_prog with
  | .error e => .error e
  | .ok _ =>
    if user_id = give.target_user_id then .error "this is a futile endeavour"
    else match player_flux.is_alive with
    | .error e => .error e
    | .ok _ =>
      match g.clone_player give.target_user_id with
      | .error e => .error e
      | .ok target_flux =>
        match target_flux.is_alive with
        | .error e => .error e
        | .ok _ =>
          match player_flux.moveable_in_prog target_flux.pos with
          | .error e => .error e
          | .ok _ =>
            let pf := { player_flux with action_points := player_flux.action_points - 1 }
            let tf := { target_flux with action_points := target_flux.action_points + 1 }
            let g1 := { g with players := ainsert g.players tf.user_id tf }
            .ok (ActionTypeEvent.Give { target_user_id := give.target_user_id },
                 pf, g1, [(tf.user_id, g.game_id, tf.action_points)], none)

/-- The `ActionType::RangeUpgrade` arm of `Game::player_action`. -/
def Game.arm_range_upgrade (g : Game) (player_flux : Player)
    (range_upgrade : RangeUpgradeAction) : ArmResult :=
  match g.check_in_prog with
  | .error e => .error e
  | .ok _ =>
    match player_flux.is_alive with
    | .error e => .error e
    | .ok _ =>
      if player_flux.action_points < RANGE_UPGRADE_COST ∨
          ¬ (range_upgrade.point_cost = RANGE_UPGRADE_COST) then
        .error (toString RANGE_UPGRADE_COST ++ " action points required to upgrade range")
      else
        let pf := { player_flux with
          action_points := player_flux.action_points - RANGE_UPGRADE_COST,
          range := player_flux.range + 1 }
        .ok (ActionTypeEvent.RangeUpgrade { point_cost := range_upgrade.point_cost },
             pf, g, [], none)

/-- The `ActionType::Heal` arm of `Game::player_action`.  Note the source error
message reuses `RANGE_UPGRADE_COST` in its format string. -/
def Game.arm_heal (g : Game) (player_flux : Player) (heal : HealAction) : ArmResult :=
  match g.check_in_prog with
  | .error e => .error e
  | .ok _ =>
    match player_flux.is_alive with
    | .error e => .error e
    | .ok _ =>
      if player_flux.action_points < HEAL_COST ∨ ¬ (heal.point_cost = HEAL_COST) then
        .error (toString RANGE_UPGRADE_COST ++ " action points required to heal")
      else
        let pf := { player_flux with
          action_points := player_flux.action_points - HEAL_COST,
          lives := player_flux.lives + 1 }
        .ok (ActionTypeEvent.Heal { point_cost := heal.point_cost }, pf, g, [], none)

/-- The actor-death block of the Revive arm: a reviver who spent their last
life is marked dead and becomes an election candidate. -/
def revive_resolve (pf : Player) (pad1 : PlayersAliveDead) (el1 : CurseElection) :
    PlayersAliveDead × CurseElection :=
  if pf.lives < 1 then (pad1.set_dead pf.user_id, el1.convert_candidate pf.user_id)
  else (pad1, el1)

/-- The `ActionType::Revive` arm of `Game::player_action`.  The source call to
`curse_election.convert_voter` always returns `Ok`. -/
def Game.arm_revive (g : Game) (user_id : String) (player_flux : Player)
    (rev : ReviveAction) : ArmResult :=
  match g.check_in_prog with
  | .error e => .error e
  | .ok _ =>
    if user_id = rev.target_user_id then .error "you can't revive yourself"
    else match player_flux.is_alive with
    | .error e => .error e
    | .ok _ =>
      match g.clone_player rev.target_user_id with
      | .error e => .error e
      | .ok target_flux =>
        match target_flux.is_dead with
        | .error e => .error e
        | .ok _ =>
          let pf := { player_flux with lives := player_flux.lives - 1 }
          let tf := { target_flux with lives := target_flux.lives + 1 }
          let pad1 := g.players_alive_dead.set_alive tf.user_id
          let el1 := g.curse_election.convert_voter tf.user_id
          let (pad2, el2) := revive_resolve pf pad1 el1
          let g1 := { g with players_alive_dead := pad2, curse_election := el2,
                             players := ainsert g.players tf.user_id tf }
          .ok (ActionTypeEvent.Revive { target_user_id := rev.target_user_id },
               pf, g1, [], some pad2)

/-- The `ActionType::Curse` arm of `Game::player_action`. -/
def Game.arm_curse (g : Game) (user_id : String) (player_flux : Player)
    (curse : CurseAction) : ArmResult :=
  match g.check_in_prog with
  | .error e => .error e
  | .ok _ =>
    match player_flux.is_dead with
    | .error e => .error e
    | .ok _ =>
      match curse.target_user_id with
      | some target_user_id =>
        match g.clone_player target_user_id with
        | .error e => .error e
        | .ok target_flux =>
          match target_flux.is_alive with
          | .error e => .error e
          | .ok _ =>
            match g.curse_election.vote user_id target_user_id with
            | .error e => .error e
            | .ok el =>
              .ok (ActionTypeEvent.Curse { target_user_id := some target_user_id },
                   player_flux, { g with curse_election := el }, [], none)
      | none =>
        .ok (ActionTypeEvent.Curse { target_user_id := none },
             player_flux, { g with curse_election := g.curse_election.remove_vote user_id },
             [], none)

/-- `Game::player_action`: validate then execute one player action.  Every
error exit of the source occurs before the source mutates `self` (checked arm
by arm), so the embedding returns the state only on success. -/
def Game.player_action (g : Game) (user_id : String) (action : ActionType) :
    Except String (PlayerActionResponse × GameStateResult × Game) :=
  if g.phase = GamePhase.End then .error "game over"
  else match g.clone_player user_id with
  | .error e => .error e
  | .ok player_flux =>
    let arm : ArmResult :=
      match action with
      | .Move walk => g.arm_move user_id player_flux walk
      | .Attack attack => g.arm_attack user_id player_flux attack
      | .Give give => g.arm_give user_id player_flux give
      | .RangeUpgrade ru => g.arm_range_upgrade player_flux ru
      | .Heal heal => g.arm_heal player_flux heal
      | .Revive rev => g.arm_revive user_id player_flux rev
      | .Curse curse => g.arm_curse user_id player_flux curse
    match arm with
    | .error e => .error e
    | .ok (action_event, pf, g1, apu, pad) =>
      let apu2 := apu ++ [(user_id, g.game_id, pf.action_points)]
      let g2 := { g1 with players := ainsert g1.players pf.user_id pf }
      .ok ({ game_id := g.game_id, user_id := user_id, phase := g2.phase,
             action := action_event },
           { action_point_updates := apu2, players_alive_dead := pad }, g2)

/-! ## src/election.rs: the preferential election -/

structure PrefBallot where
  prefs : List String
  voter : String
deriving DecidableEq, Repr

structure AllocBallot where
  ballot : PrefBallot
  allocated : String
deriving DecidableEq, Repr

/-- The source `PartialEq`/`Ord` for `PrefBallot` compares the pair
(preference count, voter id), not the preference lists themselves. -/
def PrefBallot.beq (a b : PrefBallot) : Bool :=
  a.prefs.length == b.prefs.length && a.voter == b.voter

/-- The source `Ord` for `PrefBallot`: by preference count, then voter id. -/
def PrefBallot.blt (a b : PrefBallot) : Bool :=
  a.prefs.length < b.prefs.length ||
    (a.prefs.length == b.prefs.length && decide (a.voter < b.voter))

/-- Derived `PartialEq` for `AllocBallot` (ballot per `PrefBallot` order, then
allocation). -/
def AllocBallot.beq (a b : AllocBallot) : Bool :=
  PrefBallot.beq a.ballot b.ballot && a.allocated == b.allocated

/-- `HashSet<AllocBallot>` insert under the source equality. -/
def hsInsert (s : List AllocBallot) (b : AllocBallot) : List AllocBallot :=
  if s.any (fun x => AllocBallot.beq x b) then s else b :: s

/-- `HashSet<AllocBallot>` removal under the source equality. -/
def hsRemove (s : List AllocBallot) (b : AllocBallot) : List AllocBallot :=
  s.filter (fun x => !(AllocBallot.beq x b))

/-- `BTreeSet<PrefBallot>` insert: keep the existing element when an equal one
(under the source `Ord`) is present, else insert in order. -/
def btInsert : List PrefBallot → PrefBallot → List PrefBallot
  | [], b => [b]
  | x :: rest, b =>
    if PrefBallot.blt b x then b :: x :: rest
    else if PrefBallot.beq b x then x :: rest
    else x :: btInsert rest b

/-- `BTreeSet<PrefBallot>` removal of the element equal under the source `Ord`. -/
def btRemove (s : List PrefBallot) (b : PrefBallot) : List PrefBallot :=
  s.filter (fun x => !(PrefBallot.beq x b))

/-- The `Election` of src/election.rs.  The source field `open` is a Lean
keyword, embedded as `open_`. -/
structure Election where
  name : String
  candidates : List String
  voters : List String
  vote_count : List (String × List AllocBallot)
  init_vote_count : Option (List (String × List AllocBallot))
  voter_ballots : List (String × AllocBallot)
  open_ : Bool
  ballots_ordered : List PrefBallot
deriving Repr, DecidableEq

def Election.new (name : String) : Election :=
  { name, candidates := [], voters := [], vote_count := [], init_vote_count := none,
    voter_ballots := [], open_ := true, ballots_ordered := [] }

def Election.set_candidates (e : Election) (candidates : List String) : Election :=
  { e with candidates }

def Election.set_voters (e : Election) (voters : List String) : Election :=
  { e with voters }

def Election.check_open (e : Election) : Except String Unit :=
  if !e.open_ then .error (e.name ++ " is closed to new votes") else .ok ()

def Election.check_voter_id (e : Election) (voter_id : String) : Except String Unit :=
  if voter_id ∉ e.voters then
    .error (voter_id ++ " is not a voter in " ++ e.name)
  else .ok ()

def Election.check_candidate_id (e : Election) (candidate_id : String) : Except String Unit :=
  if candidate_id ∉ e.candidates then
    .error (candidate_id ++ " is not a candidate in " ++ e.name)
  else .ok ()

/-- `Election::remove_ballot` in election.rs.  The source mutates `&mut self`;
the embedding returns the result together with the final state. -/
def Election.remove_ballot (e : Election) (voter_id : String) :
    Except String Unit × Election :=
  match e.check_open with
  | .error err => (.error err, e)
  | .ok _ =>
    match e.check_voter_id voter_id with
    | .error err => (.error err, e)
    | .ok _ =>
      let vc := match alookup e.voter_ballots voter_id with
        | some old_vote =>
          aupdate e.vote_count old_vote.allocated (fun v => hsRemove v old_vote)
        | none => e.vote_count
      let ballot_op := alookup e.voter_ballots voter_id
      let vb := aerase e.voter_ballots voter_id
      let bo := match ballot_op with
        | some ballot => btRemove e.ballots_ordered ballot.ballot
        | none => e.ballots_ordered
      (.ok (), { e with vote_count := vc, voter_ballots := vb, ballots_ordered := bo })

/-- The `for candidate_id in &prefs { self.check_candidate_id(..)? }` loop. -/
def Election.check_prefs (e : Election) : List String → Except String Unit
  | [] => .ok ()
  | c :: rest =>
    match e.check_candidate_id c with
    | .error err => .error err
    | .ok _ => e.check_prefs rest

/-- `Election::vote` in election.rs.  Note the source removes the voter's old
ballot *before* validating `prefs`, so a later validation error leaves the old
ballot removed; the embedding returns the result together with the final state. -/
def Election.vote (e : Election) (voter_id : String) (prefs : List String) :
    Except String Unit × Election :=
  match e.remove_ballot voter_id with
  | (.error err, e1) => (.error err, e1)
  | (.ok _, e1) =>
    if prefs.length < 1 ∨ prefs.length > e1.candidates.length then
      (.error "bad ballot preferences", e1)
    else match e1.check_prefs prefs with
    | .error err => (.error err, e1)
    | .ok _ =>
      if ¬ (prefs.dedup.length = prefs.length) then
        (.error "ballot contains duplicates", e1)
      else
        let ballot : PrefBallot := { prefs := prefs, voter := voter_id }
        let bo := btInsert e1.ballots_ordered ballot
        -- `prefs[0]`: the length validation above guarantees non-emptiness
        let ballot_alloc : AllocBallot := { allocated := prefs.headD "", ballot }
        let vc := match alookup e1.vote_count ballot_alloc.allocated with
          | none => ainsert e1.vote_count ballot_alloc.allocated []
          | some _ => e1.vote_count
        let vc := aupdate vc ballot_alloc.allocated (fun count => hsInsert count ballot_alloc)
        (.ok (),
          { e1 with
            ballots_ordered := bo,
            vote_count := vc,
            voter_ballots := ainsert e1.voter_ballots voter_id ballot_alloc })

/-! ## src/relay_server.rs: session registry and the HostGame handler.
`Recipient<Message>` delivery endpoints are embedded as plain strings; a
handler returns the list of `(endpoint, frame)` pairs it sent.  The JSON
snapshot bodies produced by serde (which never fails on these types) are
embedded as stand-in frames carrying the fields the claims mention. -/

def MsgResult.logout (msg : String) : String := "/logout " ++ msg

def MsgResult.alert (msg : String) : String := "/alert " ++ msg

def MsgResult.error (context msg : String) : String := "/error " ++ context ++ ": " ++ msg

/-- Stand-in for the `/host_game_success <game json>` frame. -/
def MsgResult.host_game (g : Game) : String := "/host_game_success " ++ g.game_id

/-- Stand-in for the `/action_point_update <json>` frame. -/
def MsgResult.action_point_update (user_id game_id : String) (ap : Nat) : String :=
  "/action_point_update " ++ user_id ++ " " ++ game_id ++ " " ++ toString ap

structure VerifySessionMsg where
  user_id : Option String
  addr : String
  token : String
deriving DecidableEq, Repr

structure RelayServerSessions where
  map : List (String × String)
  verification_keys : List (String × String)
deriving Repr, DecidableEq

/-- `RelayServerSessions::send_user`: deliver to the user's session if bound. -/
def RelayServerSessions.send_user (s : RelayServerSessions) (user_id msg : String) :
    List (String × String) :=
  match alookup s.map user_id with
  | some session => [(session, msg)]
  | none => []

/-- `RelayServerSessions::verify_session`: returns the new registry state and
the `(endpoint, frame)` sends. -/
def RelayServerSessions.verify_session (s : RelayServerSessions) (msg : VerifySessionMsg) :
    RelayServerSessions × List (String × String) :=
  match msg.user_id with
  | some user_id =>
    match alookup s.verification_keys user_id with
    | some sesh_key =>
      if sesh_key = msg.token then
        match alookup s.map user_id with
        | some addr =>
          if addr = msg.addr then (s, [])
          else ({ s with map := ainsert s.map user_id msg.addr },
                [(msg.addr, MsgResult.alert "new session")])
        | none =>
          ({ s with map := ainsert s.map user_id msg.addr },
           [(msg.addr, MsgResult.alert "new session")])
      else (s, [(msg.addr, MsgResult.logout "VerifySession")])
    | none => (s, [(msg.addr, MsgResult.logout "VerifySession")])
  | none => (s, [(msg.addr, MsgResult.logout "VerifySession")])

structure HostGameMsg where
  host_user_id : String
  game_id : String
deriving DecidableEq, Repr

/-- The supervisor state read and written by the embedded handlers (the `users`
credential map and the RNG handle of the source are not read by them). -/
structure RelayServer where
  user_games : List (String × String)
  games : List (String × Game)
  sessions : RelayServerSessions
deriving Repr, DecidableEq

/-- The response-sending tail of the `HostGame` handler, shared by the
existing-game and the newly-created branches. -/
def RelayServer.host_game_sends (s : RelayServer) (msg : HostGameMsg) (game : Game)
    (new_game : Bool) : List (String × String) :=
  -- the source indexes `game.players[&host_user_id]`, a panic if absent
  let ap := match alookup game.players msg.host_user_id with
    | some p => p.action_points
    | none => 0
  s.sessions.send_user msg.host_user_id (MsgResult.host_game game) ++
  s.sessions.send_user msg.host_user_id
    (MsgResult.action_point_update msg.host_user_id msg.game_id ap) ++
  s.sessions.send_user msg.host_user_id
    (MsgResult.alert (if new_game then "new game created" else "rejoined game"))

/-- `Handler<HostGame> for RelayServer`: returns the result, the new supervisor
state and the sends. -/
def RelayServer.host_game (s : RelayServer) (msg : HostGameMsg) (rolls : List Pos) :
    Option (Except String Unit × RelayServer × List (String × String)) :=
  match alookup s.games msg.game_id with
  | some game =>
    -- return game if user is host of game or err if other user is host
    if game.host_user_id = some msg.host_user_id then
      some (.ok (), s, s.host_game_sends msg game false)
    else some (.error (msg.game_id ++ " exists"), s, [])
  | none =>
    -- ELSE err only if the game the user is bound to exists with them as host
    let blocked : Bool :=
      match alookup s.user_games msg.host_user_id with
      | some bound_game_id =>
        match alookup s.games bound_game_id with
        | some bound_game => bound_game.host_user_id = some msg.host_user_id
        | none => false
      | none => false
    if blocked then some (.error "already in another game", s, [])
    else
      match (Game.new msg.game_id BOARD_SIZE).set_host msg.host_user_id rolls with
      | none => none
      | some (.error e) => some (.error e, s, [])
      | some (.ok game) =>
        let s' : RelayServer := { s with
          games := ainsert s.games msg.game_id game,
          user_games := ainsert s.user_games msg.host_user_id msg.game_id }
        some (.ok (), s', s'.host_game_sends msg game true)

/-! ## Derived observations and helper lemmas -/

instance {e a : Type} [DecidableEq e] [DecidableEq a] : DecidableEq (Except e a) :=
  fun x y =>
    match x, y with
    | .error ex, .error ey =>
      if h : ex = ey then isTrue (by rw [h]) else isFalse (by intro hc; cases hc; exact h rfl)
    | .ok ax, .ok ay =>
      if h : ax = ay then isTrue (by rw [h]) else isFalse (by intro hc; cases hc; exact h rfl)
    | .error _, .ok _ => isFalse (by intro hc; cases hc)
    | .ok _, .error _ => isFalse (by intro hc; cases hc)

/-- The heart count the hearts board records under a cell key. -/
def heart_count (b : Board (List (String × Nat))) (key : String) : Option Nat :=
  (alookup b.map key).bind (fun v => alookup v "heart")

theorem alookup_object_board_decrement_ne (b : Board (List (String × Nat)))
    (fromKey obj k : String) (h : fromKey ≠ k) :
    alookup (object_board_decrement b fromKey obj).map k = alookup b.map k := by
  unfold object_board_decrement
  cases hv : alookup b.map fromKey with
  | none => rfl
  | some v =>
    cases hf : alookup v obj with
    | none => simp [hf]
    | some f => simp only [hf]; exact alookup_ainsert_ne _ _ _ _ h

theorem object_board_decrement_size (b : Board (List (String × Nat)))
    (fromKey obj : String) :
    (object_board_decrement b fromKey obj).size = b.size := by
  unfold object_board_decrement
  cases hv : alookup b.map fromKey with
  | none => rfl
  | some v =>
    cases hf : alookup v obj with
    | none => simp [hf]
    | some f => simp [hf]

theorem heart_count_object_board_add (b : Board (List (String × Nat))) (key : String) :
    heart_count (object_board_add b key "heart") key =
      some (match heart_count b key with
            | some c => if c > 0 then c + 1 else c
            | none => 1) := by
  unfold heart_count object_board_add
  cases hv : alookup b.map key with
  | none => simp [alookup_ainsert_self, alookup]
  | some v =>
    cases ho : alookup v "heart" with
    | none => simp [alookup_ainsert_self, ho]
    | some o =>
      by_cases hpos : o > 0
      · simp [alookup_ainsert_self, ho, hpos]
      · simp [alookup_ainsert_self, ho, hpos]

/-! ## Claim C10 -/

/-- C10: in phase `Init`, a `BoardSize v` reconfiguration that passes the
capacity check (`max_players ≤ v·v`) rewrites only the player board's `size`
field: the players map, the player-board map, the hearts board (and everything
else in the game) are returned unchanged — so placed players keep their old
coordinates even if those now lie outside the shrunken bounds. -/
theorem configure_board_size_frame (g : Game) (v : Nat) (rolls : List Pos)
    (hphase : g.phase = GamePhase.Init)
    (hfit : g.config.max_players ≤ v * v) :
    g.configure (ConfigGameOp.BoardSize v) rolls =
      some (.ok (none, { g with board := { g.board with size := v } }, rolls)) := by
  simp [Game.configure, hphase, Nat.not_lt.mpr hfit]

/-- C10 witness: a concrete game in `Init` shrunk to a 4×4 board. -/
theorem configure_board_size_frame_witness :
    (Game.new "g" 10).configure (ConfigGameOp.BoardSize 4) [] =
      some (.ok (none,
        { Game.new "g" 10 with board := { (Game.new "g" 10).board with size := 4 } }, [])) :=
  configure_board_size_frame (Game.new "g" 10) 4 [] rfl (by decide)

/-! ## Claim C5 -/

def c5Game : Game :=
  { Game.new "G" 10 with
    object_board := { map := [("1,1", [("heart", 0)])], size := 10 } }

def c5Move : ActionTypeEvent :=
  .Move { from_ := { x := USIZE_MAX, y := USIZE_MAX }, to_ := { x := 1, y := 1 } }

/-- C5 counterexample: a heart spawn onto an empty cell whose hearts counter was
previously emptied to 0 leaves the counter at 0; the claimed increment to 1
does not happen. -/
theorem heart_spawn_zero_counter_cex :
    heart_count c5Game.object_board "1,1" = some 0 ∧
    heart_count (c5Game.game_action c5Move "heart").2.object_board "1,1" = some 0 := by
  decide

/-- C5 (amended): a heart spawn onto a cell unoccupied by players increments the
cell's hearts count by 1 when no counter exists there or the existing counter is
positive; a previously emptied counter of 0 is left at 0. -/
theorem heart_spawn_empty_cell (g : Game) (m : MoveEvent)
    (hx : m.to_.x < g.object_board.size) (hy : m.to_.y < g.object_board.size)
    (hempty : alookup g.board.map m.to_.key = none)
    (hkey : m.from_.key ≠ m.to_.key) :
    ∃ res g', g.game_action (.Move m) "heart" = (.ok (res, none), g') ∧
      heart_count g'.object_board m.to_.key =
        some (match heart_count g.object_board m.to_.key with
              | some c => if c > 0 then c + 1 else c
              | none => 1) := by
  have hin : g.object_board.in_bounds m.to_ false = .ok () := by
    simp [Board.in_bounds, Nat.not_le.mpr hx, Nat.not_le.mpr hy]
  have hact : g.game_action (.Move m) "heart" =
      (.ok ((object_board_add (object_board_decrement g.object_board m.from_.key "heart") m.to_.key "heart").map, none),
       { g with object_board := object_board_add (object_board_decrement g.object_board m.from_.key "heart") m.to_.key "heart" }) := by
    simp only [Game.game_action, hin, hempty]
  have hdec : heart_count
      (object_board_decrement g.object_board m.from_.key "heart") m.to_.key =
      heart_count g.object_board m.to_.key := by
    unfold heart_count
    rw [alookup_object_board_decrement_ne _ _ _ _ hkey]
  exact ⟨_, _, hact, by rw [heart_count_object_board_add, hdec]⟩

/-- C5 witness for the amended statement: a fresh board receives its first
heart at (3,3). -/
theorem heart_spawn_empty_cell_witness :
    ∃ res g',
      (Game.new "G" 10).game_action
        (.Move { from_ := { x := USIZE_MAX, y := USIZE_MAX }, to_ := { x := 3, y := 3 } })
        "heart" = (.ok (res, none), g') ∧
      heart_count g'.object_board (Pos.key { x := 3, y := 3 }) =
        some (match heart_count (Game.new "G" 10).object_board
                (Pos.key { x := 3, y := 3 }) with
              | some c => if c > 0 then c + 1 else c
              | none => 1) :=
  heart_spawn_empty_cell (Game.new "G" 10)
    { from_ := { x := USIZE_MAX, y := USIZE_MAX }, to_ := { x := 3, y := 3 } }
    (by decide) (by decide) (by decide) (by decide)

/-! ## Claim C2 -/

def c2DeadPlayer : Player :=
  { user_id := "x", game_id := "G", lives := 0, action_points := 2,
    pos := { x := 2, y := 2 }, range := 2 }

def c2Game : Game :=
  { Game.new "G" 10 with
    phase := GamePhase.InProg,
    players := [("x", c2DeadPlayer)],
    players_alive_dead := { alive := [], dead := ["x"] },
    board := { map := [("2,2", "x")], size := 10 } }

def c2Move : ActionTypeEvent :=
  .Move { from_ := { x := USIZE_MAX, y := USIZE_MAX }, to_ := { x := 2, y := 2 } }

/-- C2 exhibit: a heart spawn onto the cell of a dead player emits a Revive
event, moves the player into the alive set and leaves the hearts board alone —
but the player's life count stays 0 (the source's `// update player lives`
comment has no code under it) and the election roles are untouched. -/
theorem heart_spawn_dead_player_bug :
    ((c2Game.game_action c2Move "heart").2.players = [("x", c2DeadPlayer)]) ∧
    ("x" ∈ (c2Game.game_action c2Move "heart").2.players_alive_dead.alive) ∧
    ((c2Game.game_action c2Move "heart").2.curse_election = c2Game.curse_election) ∧
    ((c2Game.game_action c2Move "heart").1.toOption.map
        (fun r => r.2.map (fun pe => pe.1.action)) =
      some (some (.Revive { target_user_id := "x" }))) ∧
    heart_count (c2Game.game_action c2Move "heart").2.object_board "2,2" = none := by
  decide

/-! ## Claim C3 -/

def c3El0 : Election := ((Election.new "test").set_candidates ["a"]).set_voters ["v"]

def c3El1 : Election := (c3El0.vote "v" ["a"]).2

/-- C3 counterexample: after voter v has a recorded ballot, a failing
`vote(v, [])` (error `bad ballot preferences`) leaves the election mutated: the
previous ballot is gone from the per-voter map, the ordered index and the
allocation set of its first preference. -/
theorem vote_error_removes_prior_ballot_cex :
    ((c3El1.vote "v" []).1 = .error "bad ballot preferences") ∧
    (alookup c3El1.voter_ballots "v" =
      some { ballot := { prefs := ["a"], voter := "v" }, allocated := "a" }) ∧
    (alookup (c3El1.vote "v" []).2.voter_ballots "v" = none) ∧
    ((c3El1.vote "v" []).2.ballots_ordered = []) ∧
    (alookup (c3El1.vote "v" []).2.vote_count "a" = some []) := by
  decide

/-- C3 (amended): when `vote` fails, the final election state equals the state
after `remove_ballot(voter)` — unchanged when the failure came from the
open/voter checks inside `remove_ballot` (second conjunct), but with the
voter's previous ballot already removed when a prefs validation failed. -/
theorem vote_error_state (e : Election) (voter_id : String) (prefs : List String)
    (msg : String) (h : (e.vote voter_id prefs).1 = .error msg) :
    (e.vote voter_id prefs).2 = (e.remove_ballot voter_id).2 ∧
    (∀ msg', (e.remove_ballot voter_id).1 = .error msg' →
      (e.remove_ballot voter_id).2 = e) := by
  constructor
  · unfold Election.vote at h ⊢
    rcases h0 : e.remove_ballot voter_id with ⟨r, e1⟩
    rw [h0] at h
    cases r with
    | error err => rfl
    | ok _ =>
      dsimp only at h ⊢
      by_cases h1 : prefs.length < 1 ∨ prefs.length > e1.candidates.length
      · simp only [if_pos h1]
      · simp only [if_neg h1] at h ⊢
        cases h2 : e1.check_prefs prefs with
        | error err => simp [h2]
        | ok _ =>
          simp only [h2] at h ⊢
          by_cases h3 : ¬ (prefs.dedup.length = prefs.length)
          · simp only [if_pos h3]
          · rw [if_neg h3] at h
            simp at h
  · intro msg' h'
    unfold Election.remove_ballot at h' ⊢
    cases h1 : e.check_open with
    | error err => simp [h1]
    | ok _ =>
      simp only [h1] at h' ⊢
      cases h2 : e.check_voter_id voter_id with
      | error err => simp [h2]
      | ok _ =>
        simp only [h2] at h'
        simp at h'

/-- C3 witness: the amended statement applied at the concrete counterexample
input. -/
theorem vote_error_state_witness :
    ((c3El1.vote "v" []).2 = (c3El1.remove_ballot "v").2) ∧
    (∀ msg', (c3El1.remove_ballot "v").1 = .error msg' →
      (c3El1.remove_ballot "v").2 = c3El1) :=
  vote_error_state c3El1 "v" [] "bad ballot preferences" (by decide)

/-! ## Claim C8 -/

/-- C8: `verify_session` (a) sends nothing when the user is known, the token
matches and the endpoint is already the bound session; (b) rebinds the user to
the new endpoint and sends it exactly one `new session` alert when the token
matches but the bound endpoint differs or none is bound; (c) in every other
case (absent user id, unknown user, or token mismatch) sends the endpoint a
logout instruction and leaves the registry unchanged. -/
theorem verify_session_spec (s : RelayServerSessions) (msg : VerifySessionMsg) :
    (∀ user_id, msg.user_id = some user_id →
      alookup s.verification_keys user_id = some msg.token →
      ((alookup s.map user_id = some msg.addr →
          s.verify_session msg = (s, [])) ∧
       (¬ alookup s.map user_id = some msg.addr →
          s.verify_session msg =
            ({ s with map := ainsert s.map user_id msg.addr },
             [(msg.addr, MsgResult.alert "new session")])))) ∧
    ((msg.user_id = none ∨
      ∃ user_id, msg.user_id = some user_id ∧
        ¬ alookup s.verification_keys user_id = some msg.token) →
      s.verify_session msg = (s, [(msg.addr, MsgResult.logout "VerifySession")])) := by
  constructor
  · intro user_id hu hk
    constructor
    · intro hb
      simp [RelayServerSessions.verify_session, hu, hk, hb]
    · intro hb
      cases ha : alookup s.map user_id with
      | none => simp [RelayServerSessions.verify_session, hu, hk, ha]
      | some addr =>
        have hne : ¬ addr = msg.addr := fun e => hb (by rw [ha, e])
        simp [RelayServerSessions.verify_session, hu, hk, ha, hne]
  · rintro (hu | ⟨user_id, hu, hk⟩)
    · simp [RelayServerSessions.verify_session, hu]
    · cases hk2 : alookup s.verification_keys user_id with
      | none => simp [RelayServerSessions.verify_session, hu, hk2]
      | some key =>
        have hne : ¬ key = msg.token := fun e => hk (by rw [hk2, e])
        simp [RelayServerSessions.verify_session, hu, hk2, hne]

def c8Sessions : RelayServerSessions :=
  { map := [("u", "E1")], verification_keys := [("u", "t1")] }

/-- C8 witness: the silent-accept case at a concrete registry. -/
theorem verify_session_spec_witness :
    c8Sessions.verify_session { user_id := some "u", addr := "E1", token := "t1" } =
      (c8Sessions, []) :=
  ((verify_session_spec c8Sessions
      { user_id := some "u", addr := "E1", token := "t1" }).1
    "u" rfl (by decide)).1 (by decide)

/-! ## Claim C1 -/

theorem randomly_position_loop_spec (player : Player) (board : Board String) :
    ∀ rolls p' b' r', randomly_position_loop player board rolls = some (p', b', r') →
      p'.user_id = player.user_id ∧ b'.size = board.size ∧ p'.pos ∈ rolls ∧
      (∀ q ∈ r', q ∈ rolls) := by
  intro rolls
  induction rolls with
  | nil => intro p' b' r' h; cases h
  | cons pos rest ih =>
    intro p' b' r' h
    by_cases hocc : (alookup board.map pos.key).isSome = true
    · simp only [randomly_position_loop, if_pos hocc] at h
      obtain ⟨h1, h2, h3, h4⟩ := ih p' b' r' h
      exact ⟨h1, h2, List.mem_cons_of_mem _ h3, fun q hq => List.mem_cons_of_mem _ (h4 q hq)⟩
    · simp only [randomly_position_loop, if_neg hocc] at h
      cases h
      exact ⟨rfl, rfl, List.mem_cons_self .., fun q hq => List.mem_cons_of_mem _ hq⟩

theorem randomly_position_spec (player : Player) (board : Board String)
    (rolls : List Pos) (p' : Player) (b' : Board String) (r' : List Pos)
    (h : randomly_position player board rolls = some (p', b', r')) :
    p'.user_id = player.user_id ∧ b'.size = board.size ∧ p'.pos ∈ rolls ∧
    (∀ q ∈ r', q ∈ rolls) := by
  unfold randomly_position at h
  exact randomly_position_loop_spec player
    { board with map := aerase board.map player.pos.key } rolls p' b' r' h

/-- What the `start_game` placement loop does to the player list: keys and
owners are preserved; a player whose position was already inside the board is
kept verbatim, the rest take positions drawn from the rolls. -/
def placeRel (size : Nat) (rolls : List Pos) (kp kp' : String × Player) : Prop :=
  kp'.1 = kp.1 ∧ kp'.2.user_id = kp.2.user_id ∧
    ((kp'.2 = kp.2 ∧ kp.2.pos.x < size ∧ kp.2.pos.y < size) ∨ kp'.2.pos ∈ rolls)

theorem start_game_place_spec :
    ∀ ps (board : Board String) rolls ps' b' r',
      start_game_place ps board rolls = some (ps', b', r') →
      b'.size = board.size ∧ (∀ q ∈ r', q ∈ rolls) ∧
      List.Forall₂ (placeRel board.size rolls) ps ps' := by
  intro ps
  induction ps with
  | nil =>
    intro board rolls ps' b' r' h
    simp only [start_game_place] at h
    cases h
    exact ⟨rfl, fun q hq => hq, List.Forall₂.nil⟩
  | cons kp rest ih =>
    obtain ⟨k, p⟩ := kp
    intro board rolls ps' b' r' h
    by_cases hv : p.pos.x ≥ board.size ∨ p.pos.y ≥ board.size
    · simp only [start_game_place, if_pos hv] at h
      cases hrp : randomly_position p board rolls with
      | none => rw [hrp] at h; cases h
      | some t =>
        obtain ⟨p1, b1, r1⟩ := t
        rw [hrp] at h
        dsimp only at h
        cases hpl : start_game_place rest b1 r1 with
        | none => rw [hpl] at h; cases h
        | some t2 =>
          obtain ⟨ps2, b2, r2⟩ := t2
          rw [hpl] at h
          cases h
          obtain ⟨hu, hs, hmem, hsub⟩ := randomly_position_spec p board rolls p1 b1 r1 hrp
          obtain ⟨hs2, hsub2, hrel⟩ := ih _ _ _ _ _ hpl
          refine ⟨hs2.trans hs, fun q hq => hsub q (hsub2 q hq), ?_⟩
          refine List.Forall₂.cons ⟨rfl, hu, Or.inr hmem⟩ ?_
          refine hrel.imp ?_
          intro a b hab
          obtain ⟨h1, h2, h3⟩ := hab
          refine ⟨h1, h2, ?_⟩
          rw [hs] at h3
          exact h3.imp id (fun hm => hsub _ hm)
    · simp only [start_game_place, if_neg hv] at h
      cases hpl : start_game_place rest board rolls with
      | none => rw [hpl] at h; cases h
      | some t2 =>
        obtain ⟨ps2, b2, r2⟩ := t2
        rw [hpl] at h
        cases h
        obtain ⟨hs2, hsub2, hrel⟩ := ih _ _ _ _ _ hpl
        push_neg at hv
        exact ⟨hs2, hsub2, List.Forall₂.cons ⟨rfl, rfl, Or.inl ⟨rfl, hv.1, hv.2⟩⟩ hrel⟩

/-- C1 (amended): in phase `Init`, `start_game` requires at least **4** players
(not 2): with fewer it fails with `4 or more players required to start a game`;
with 4 or more (and enough placement entropy) it succeeds, keeps every player
whose position was already inside the board, randomly places every player
without a valid position at drawn positions, sets the phase to `InProg` and
sets `turn_end_unix = now + turn_time_secs`. -/
theorem start_game_spec (g : Game) (rolls : List Pos) (now : Nat) :
    (g.phase = GamePhase.Init → g.players.length < 4 →
      g.start_game rolls now = some (.error "4 or more players required to start a game")) ∧
    (∀ ps b r, g.phase = GamePhase.Init → 4 ≤ g.players.length →
      start_game_place g.players g.board rolls = some (ps, b, r) →
      g.start_game rolls now =
        some (.ok { g with
          players := ps,
          board := b,
          curse_election := { g.curse_election with
            candidates := g.players_alive_dead.alive },
          phase := GamePhase.InProg,
          turn_end_unix := now + g.config.turn_time_secs }) ∧
      List.Forall₂ (placeRel g.board.size rolls) g.players ps) := by
  constructor
  · intro hph hlt
    simp [Game.start_game, hph, hlt]
  · intro ps b r hph hge hpl
    refine ⟨?_, (start_game_place_spec g.players g.board rolls ps b r hpl).2.2⟩
    simp [Game.start_game, hph, Nat.not_lt.mpr hge, hpl]

def c1PlayerAt (uid : String) (x y : Nat) : Player :=
  { user_id := uid, game_id := "G", lives := 3, action_points := 1,
    pos := { x, y }, range := 2 }

def c1TwoPlayerGame : Game :=
  { Game.new "G" 10 with
    players := [("a", c1PlayerAt "a" 0 0), ("b", c1PlayerAt "b" 1 0)],
    players_alive_dead := { alive := ["a", "b"], dead := [] },
    board := { map := [("0,0", "a"), ("1,0", "b")], size := 10 } }

/-- C1 counterexample: an `Init` game holding exactly two validly placed
players; `start_game` fails, refuting the claim that two players suffice. -/
theorem start_game_two_players_cex :
    c1TwoPlayerGame.phase = GamePhase.Init ∧
    c1TwoPlayerGame.players.length = 2 ∧
    c1TwoPlayerGame.start_game [] 100 =
      some (.error "4 or more players required to start a game") := by
  decide

def c1FourPlayerGame : Game :=
  { Game.new "G" 10 with
    players := [("a", c1PlayerAt "a" 0 0), ("b", c1PlayerAt "b" 1 0),
                ("c", c1PlayerAt "c" 2 0), ("d", c1PlayerAt "d" 3 0)],
    players_alive_dead := { alive := ["a", "b", "c", "d"], dead := [] },
    board := { map := [("0,0", "a"), ("1,0", "b"), ("2,0", "c"), ("3,0", "d")],
               size := 10 } }

/-- C1 witness: with four players the amended statement yields a successful
start. -/
theorem start_game_spec_witness :
    c1FourPlayerGame.start_game [] 100 =
      some (.ok { c1FourPlayerGame with
        players := c1FourPlayerGame.players,
        board := c1FourPlayerGame.board,
        curse_election := { c1FourPlayerGame.curse_election with
          candidates := c1FourPlayerGame.players_alive_dead.alive },
        phase := GamePhase.InProg,
        turn_end_unix := 100 + c1FourPlayerGame.config.turn_time_secs }) ∧
    List.Forall₂ (placeRel c1FourPlayerGame.board.size [])
      c1FourPlayerGame.players c1FourPlayerGame.players :=
  (start_game_spec c1FourPlayerGame [] 100).2
    c1FourPlayerGame.players c1FourPlayerGame.board [] rfl (by decide) (by decide)

/-! ## Claim C7 -/

theorem alookup_mem {α : Type} (m : List (String × α)) (k : String) (v : α)
    (h : alookup m k = some v) : (k, v) ∈ m := by
  induction m with
  | nil => cases h
  | cons hd tl ih =>
    obtain ⟨k0, v0⟩ := hd
    by_cases h2 : k0 = k
    · subst h2
      simp [alookup] at h
      subst h
      exact List.mem_cons_self ..
    · simp only [alookup, if_neg h2] at h
      exact List.mem_cons_of_mem _ (ih h)

theorem alookup_map_entry {α β : Type} (ps : List (String × α)) (F : String × α → β)
    (k : String) :
    alookup (ps.map (fun kv => (kv.1, F kv))) k = (alookup ps k).map (fun v => F (k, v)) := by
  induction ps with
  | nil => rfl
  | cons hd tl ih =>
    obtain ⟨k0, v0⟩ := hd
    by_cases h : k0 = k
    · subst h; simp [alookup]
    · simp [alookup, h, ih]

theorem replenish_players_map_eq (ps : List (String × Player)) (cursed : List String) :
    ps.map (fun kv => if kv.2.user_id ∉ cursed ∧ kv.2.lives > 0 then
        (kv.1, { kv.2 with action_points := kv.2.action_points + 1 }) else kv) =
    ps.map (fun kv => (kv.1, if kv.2.user_id ∉ cursed ∧ kv.2.lives > 0 then
        { kv.2 with action_points := kv.2.action_points + 1 } else kv.2)) := by
  apply List.map_congr_left
  intro kv _
  by_cases h : kv.2.user_id ∉ cursed ∧ kv.2.lives > 0
  · simp [h]
  · simp [h]

/-- C7: `replenish` fails unless the game is `InProg`; on success every player
with positive lives that the curse election did not elect gains exactly one
action point, every other player is unchanged, an update tuple
`(user, game, new_ap)` is emitted for every player regardless of gain, and
`turn_end_unix` is rescheduled to `now + turn_time_secs`. -/
theorem replenish_spec (g : Game) (now : Nat) :
    (¬ g.phase = GamePhase.InProg → g.replenish now = .error "Game not in progress") ∧
    (g.phase = GamePhase.InProg →
      ∃ apu g', g.replenish now = .ok (apu, g') ∧
        g'.turn_end_unix = now + g.config.turn_time_secs ∧
        (∀ k p, alookup g.players k = some p →
          alookup g'.players k =
            some (if p.user_id ∉ (g.curse_election.redeem).1 ∧ p.lives > 0
              then { p with action_points := p.action_points + 1 } else p)) ∧
        (∀ k p, alookup g.players k = some p →
          (p.user_id, g.game_id,
            (if p.user_id ∉ (g.curse_election.redeem).1 ∧ p.lives > 0
              then p.action_points + 1 else p.action_points)) ∈ apu) ∧
        apu.length = g.players.length) := by
  constructor
  · intro hnp
    simp [Game.replenish, Game.check_in_prog, hnp]
  · intro hp
    have hok : g.check_in_prog = .ok () := by simp [Game.check_in_prog, hp]
    have heq : g.replenish now = .ok
        ((g.players.map (fun kv =>
            if kv.2.user_id ∉ (g.curse_election.redeem).1 ∧ kv.2.lives > 0 then
              (kv.1, { kv.2 with action_points := kv.2.action_points + 1 }) else kv)).map
          (fun kv => (kv.2.user_id, g.game_id, kv.2.action_points)),
         { g with
           players := g.players.map (fun kv =>
             if kv.2.user_id ∉ (g.curse_election.redeem).1 ∧ kv.2.lives > 0 then
               (kv.1, { kv.2 with action_points := kv.2.action_points + 1 }) else kv),
           curse_election := (g.curse_election.redeem).2.reset,
           turn_end_unix := now + g.config.turn_time_secs }) := by
      simp only [Game.replenish, hok]
    refine ⟨_, _, heq, rfl, ?_, ?_, ?_⟩
    · intro k p hkp
      show alookup (g.players.map _) k = _
      rw [replenish_players_map_eq, alookup_map_entry, hkp]
      rfl
    · intro k p hkp
      have hmem : (k, if p.user_id ∉ (g.curse_election.redeem).1 ∧ p.lives > 0
          then { p with action_points := p.action_points + 1 } else p) ∈
          g.players.map (fun kv => if kv.2.user_id ∉ (g.curse_election.redeem).1 ∧ kv.2.lives > 0
            then (kv.1, { kv.2 with action_points := kv.2.action_points + 1 }) else kv) := by
        rw [replenish_players_map_eq]
        exact List.mem_map.mpr ⟨(k, p), alookup_mem _ _ _ hkp, rfl⟩
      refine List.mem_map.mpr ⟨_, hmem, ?_⟩
      by_cases hc : p.user_id ∉ (g.curse_election.redeem).1 ∧ p.lives > 0
      · simp [hc]
      · simp [hc]
    · simp [List.length_map]

def c7Game : Game := { c1FourPlayerGame with phase := GamePhase.InProg }

/-- C7 witness: a non-`InProg` game fails; a concrete `InProg` game succeeds. -/
theorem replenish_spec_witness :
    ((Game.new "g" 10).replenish 7 = .error "Game not in progress") ∧
    (c7Game.replenish 7).toOption.isSome = true := by
  constructor
  · exact (replenish_spec (Game.new "g" 10) 7).1 (by decide)
  · obtain ⟨apu, g', heq, _⟩ := (replenish_spec c7Game 7).2 rfl
    rw [heq]
    rfl

/-! ## Claim C4 -/

/-- C4 (amended): `HostGame{u, g}` (i) returns the existing game idempotently,
changing nothing, when `g` exists hosted by `u`; (ii) fails when `g` exists
with a different host; (iii) fails when `g` does not exist but `u`'s bound game
exists **with `u` as its host**; (iv) in every other case — including when `u`
is bound to a different game that is missing from the games map or hosted by
someone else — it creates game `g`, records it under `g`, and rebinds `u` to
`g`.  The original claim's "bound to a different game ⟹ fail" holds only in
case (iii). -/
theorem host_game_spec (s : RelayServer) (msg : HostGameMsg) (rolls : List Pos) :
    (∀ game, alookup s.games msg.game_id = some game →
      game.host_user_id = some msg.host_user_id →
      ∃ sends, s.host_game msg rolls = some (.ok (), s, sends)) ∧
    (∀ game, alookup s.games msg.game_id = some game →
      ¬ game.host_user_id = some msg.host_user_id →
      s.host_game msg rolls = some (.error (msg.game_id ++ " exists"), s, [])) ∧
    (alookup s.games msg.game_id = none →
      ∀ bound_id bound_game, alookup s.user_games msg.host_user_id = some bound_id →
        alookup s.games bound_id = some bound_game →
        bound_game.host_user_id = some msg.host_user_id →
        s.host_game msg rolls = some (.error "already in another game", s, [])) ∧
    (alookup s.games msg.game_id = none →
      ¬ (∃ bound_id bound_game, alookup s.user_games msg.host_user_id = some bound_id ∧
          alookup s.games bound_id = some bound_game ∧
          bound_game.host_user_id = some msg.host_user_id) →
      ∀ game, (Game.new msg.game_id BOARD_SIZE).set_host msg.host_user_id rolls =
          some (.ok game) →
      ∃ sends, s.host_game msg rolls = some (.ok (),
        { s with
          games := ainsert s.games msg.game_id game,
          user_games := ainsert s.user_games msg.host_user_id msg.game_id }, sends)) := by
  refine ⟨?_, ?_, ?_, ?_⟩
  · intro game hg hh
    exact ⟨s.host_game_sends msg game false, by simp [RelayServer.host_game, hg, hh]⟩
  · intro game hg hh
    simp [RelayServer.host_game, hg, hh]
  · intro hg bound_id bound_game hb hbg hh
    simp [RelayServer.host_game, hg, hb, hbg, hh]
  · intro hg hnb game hset
    refine ⟨RelayServer.host_game_sends
      { s with
        games := ainsert s.games msg.game_id game,
        user_games := ainsert s.user_games msg.host_user_id msg.game_id } msg game true, ?_⟩
    cases hb : alookup s.user_games msg.host_user_id with
    | none =>
      simp only [RelayServer.host_game, hg, hb, hset]
      rfl
    | some bound_id =>
      cases hbg : alookup s.games bound_id with
      | none =>
        simp only [RelayServer.host_game, hg, hb, hbg, hset]
        rfl
      | some bound_game =>
        have hh : ¬ bound_game.host_user_id = some msg.host_user_id :=
          fun hh => hnb ⟨bound_id, bound_game, hb, hbg, hh⟩
        simp only [RelayServer.host_game, hg, hb, hbg, hset]
        simp [hh]

def c4StaleGame : Game := { Game.new "g1" 10 with host_user_id := some "w" }

def c4Server : RelayServer :=
  { user_games := [("u", "g1")],
    games := [("g1", c4StaleGame)],
    sessions := { map := [], verification_keys := [] } }

def c4Res : Option (Except String Unit × RelayServer × List (String × String)) :=
  c4Server.host_game { host_user_id := "u", game_id := "g2" } [{ x := 0, y := 0 }]

/-- C4 counterexample: `user_games` binds `u` to `g1`, game `g2` does not exist,
and `g1` is hosted by a different user `w`; `HostGame{u, g2}` is claimed to
fail and create nothing, but the source succeeds, creates `g2` and rebinds
`u → g2`. -/
theorem host_game_stale_binding_cex :
    (c4Res.map (fun t =>
      ((t.1.toOption).isSome, (alookup t.2.1.games "g2").isSome,
       alookup t.2.1.user_games "u"))) = some (true, true, some "g2") := by
  decide

/-- C4 witness: the idempotent rehost case of the amended statement at a
concrete state. -/
theorem host_game_spec_witness :
    ∃ sends,
      c4Server.host_game { host_user_id := "w", game_id := "g1" } [] =
        some (.ok (), c4Server, sends) :=
  (host_game_spec c4Server { host_user_id := "w", game_id := "g1" } []).1
    c4StaleGame (by decide) (by decide)

/-! ## Claim C6 -/

theorem check_in_prog_ok (g : Game) (h : g.phase = GamePhase.InProg) :
    g.check_in_prog = .ok () := by
  simp [Game.check_in_prog, h]

theorem is_alive_ok (p : Player) (h : 1 ≤ p.lives) : p.is_alive = .ok () := by
  simp [Player.is_alive, Nat.not_lt.mpr h]

theorem clone_player_ok (g : Game) (pid : String) (p : Player)
    (h : alookup g.players pid = some p) : g.clone_player pid = .ok p := by
  simp [Game.clone_player, h]

theorem moveable_ok (p : Player) (q : Pos) (hap : 1 ≤ p.action_points)
    (hx : (Pos.xy_distances p.pos q).x ≤ p.range)
    (hy : (Pos.xy_distances p.pos q).y ≤ p.range) :
    p.moveable_in_prog q = .ok () := by
  simp [Player.moveable_in_prog, Player.has_action_points,
    Nat.not_lt.mpr hap, Nat.not_lt.mpr hx, Nat.not_lt.mpr hy]

/-- C6: a validated Attack in `InProg` that drops the target's lives to 0
transfers the target's whole pre-attack action-point balance to the attacker
(on top of the attack cost of 1), zeroes the target's action points while
emitting a 0-AP update for the target, moves the target to the dead set, and
ends the game exactly when one player remains alive.  The key hypotheses spell
out the source's validation: in-progress phase, no self-target, living attacker
with an action point and the target within range, target at 1 life. -/
theorem attack_kill_spec (g : Game) (uid tgt : String) (p t : Player)
    (hphase : g.phase = GamePhase.InProg)
    (hne : uid ≠ tgt)
    (hp : alookup g.players uid = some p) (hpu : p.user_id = uid)
    (ht : alookup g.players tgt = some t) (htu : t.user_id = tgt)
    (hpl : 1 ≤ p.lives) (htl : t.lives = 1)
    (hap : 1 ≤ p.action_points)
    (hrx : (Pos.xy_distances p.pos t.pos).x ≤ p.range)
    (hry : (Pos.xy_distances p.pos t.pos).y ≤ p.range) :
    ∃ par gsr g',
      g.player_action uid (.Attack { target_user_id := tgt, lives_effect := 1 }) =
        .ok (par, gsr, g') ∧
      alookup g'.players uid =
        some { p with action_points := p.action_points - 1 + t.action_points } ∧
      alookup g'.players tgt = some { t with lives := 0, action_points := 0 } ∧
      (tgt, g.game_id, 0) ∈ gsr.action_point_updates ∧
      (uid, g.game_id, p.action_points - 1 + t.action_points) ∈ gsr.action_point_updates ∧
      g'.players_alive_dead = g.players_alive_dead.set_dead tgt ∧
      tgt ∈ g'.players_alive_dead.dead ∧
      g'.phase = (if (g.players_alive_dead.set_dead tgt).alive_len = 1
        then GamePhase.End else GamePhase.InProg) ∧
      gsr.players_alive_dead = some (g.players_alive_dead.set_dead tgt) := by
  have hcin : g.check_in_prog = .ok () := check_in_prog_ok g hphase
  have hpalive : p.is_alive = .ok () := is_alive_ok p hpl
  have htalive : t.is_alive = .ok () := is_alive_ok t (by omega)
  have hclonep : g.clone_player uid = .ok p := clone_player_ok g uid p hp
  have hclonet : g.clone_player tgt = .ok t := clone_player_ok g tgt t ht
  have hmov : p.moveable_in_prog t.pos = .ok () := moveable_ok p t.pos hap hrx hry
  have heq : g.player_action uid (.Attack { target_user_id := tgt, lives_effect := 1 }) =
      .ok ({ user_id := uid, game_id := g.game_id,
             phase := if (g.players_alive_dead.set_dead tgt).alive_len = 1
               then GamePhase.End else GamePhase.InProg,
             action := .Attack { target_user_id := tgt, lives_effect := 1 } },
           { action_point_updates :=
               [(tgt, g.game_id, 0), (uid, g.game_id, p.action_points - 1 + t.action_points)],
             players_alive_dead := some (g.players_alive_dead.set_dead tgt) },
           { g with
             players := ainsert (ainsert g.players tgt { t with lives := 0, action_points := 0 })
               uid { p with action_points := p.action_points - 1 + t.action_points },
             players_alive_dead := g.players_alive_dead.set_dead tgt,
             curse_election := g.curse_election.convert_candidate tgt,
             phase := if (g.players_alive_dead.set_dead tgt).alive_len = 1
               then GamePhase.End else GamePhase.InProg }) := by
    simp [Game.player_action, Game.arm_attack, Game.attack_resolve,
      Game.check_for_end_phase_move,
      hphase, hcin, hclonep, hclonet, hpalive, htalive, hmov, ht, htl, htu, hpu, hne,
      ATTACK_LIVES_EFFECT, ATTACK_COST]
  refine ⟨_, _, _, heq, ?_, ?_, ?_, ?_, ?_, ?_, ?_, ?_⟩
  · exact alookup_ainsert_self ..
  · rw [alookup_ainsert_ne _ _ _ _ hne]
    exact alookup_ainsert_self ..
  · exact List.mem_cons_self ..
  · exact List.mem_cons_of_mem _ (List.mem_cons_self ..)
  · rfl
  · exact (mem_sinsert ..).mpr (Or.inl rfl)
  · rfl
  · rfl

def c6Target : Player :=
  { user_id := "b", game_id := "G", lives := 1, action_points := 5,
    pos := { x := 1, y := 0 }, range := 2 }

def c6Game : Game :=
  { Game.new "G" 10 with
    phase := GamePhase.InProg,
    players := [("a", c1PlayerAt "a" 0 0), ("b", c6Target)],
    players_alive_dead := { alive := ["a", "b"], dead := [] },
    board := { map := [("0,0", "a"), ("1,0", "b")], size := 10 } }

/-- C6 witness: a concrete lethal attack; applying the theorem shows the call
succeeds. -/
theorem attack_kill_spec_witness :
    (c6Game.player_action "a"
      (.Attack { target_user_id := "b", lives_effect := 1 })).toOption.isSome = true := by
  obtain ⟨par, gsr, g', heq, _⟩ := attack_kill_spec c6Game "a" "b"
    (c1PlayerAt "a" 0 0) c6Target rfl (by decide) (by decide) (by decide)
    (by decide) (by decide) (by decide) (by decide) (by decide) (by decide) (by decide)
  rw [heq]
  rfl

/-! ## Claim C9 -/

/-- The C9 bookkeeping property for an alive/dead pair against a players map:
the two sets cover exactly the map's key set and are disjoint. -/
def padOk (pad : PlayersAliveDead) (ps : List (String × Player)) : Prop :=
  (∀ u, (u ∈ pad.alive ∨ u ∈ pad.dead) ↔ (alookup ps u).isSome = true) ∧
  (∀ u, ¬ (u ∈ pad.alive ∧ u ∈ pad.dead))

/-- Auxiliary invariant: every binding in the players map carries a player
whose `user_id` equals its key (needed because `player_action` re-inserts the
staged copies under their `user_id`). -/
def keyOk (ps : List (String × Player)) : Prop :=
  ∀ k p, alookup ps k = some p → p.user_id = k

/-- The C9 invariant of a game, with the key consistency that carries it
through `player_action`. -/
def gameInv (g : Game) : Prop :=
  padOk g.players_alive_dead g.players ∧ keyOk g.players

theorem alookup_ainsert_cases {α : Type} (m : List (String × α)) (k : String) (v : α)
    (k' : String) :
    alookup (ainsert m k v) k' = if k' = k then some v else alookup m k' := by
  by_cases h : k' = k
  · subst h; simp [alookup_ainsert_self]
  · simp [h, alookup_ainsert_ne m k k' v (fun e => h e.symm)]

theorem padOk_set_alive (pad : PlayersAliveDead) (ps : List (String × Player))
    (k : String) (hk : (alookup ps k).isSome = true) (h : padOk pad ps) :
    padOk (pad.set_alive k) ps := by
  obtain ⟨h1, h2⟩ := h
  constructor
  · intro u
    simp only [PlayersAliveDead.set_alive, mem_sinsert, mem_serase]
    constructor
    · rintro ((rfl | hu) | ⟨hu, _⟩)
      · exact hk
      · exact (h1 u).mp (Or.inl hu)
      · exact (h1 u).mp (Or.inr hu)
    · intro hs
      rcases (h1 u).mpr hs with hu | hu
      · exact Or.inl (Or.inr hu)
      · by_cases he : u = k
        · exact Or.inl (Or.inl he)
        · exact Or.inr ⟨hu, he⟩
  · intro u
    simp only [PlayersAliveDead.set_alive, mem_sinsert, mem_serase]
    rintro ⟨(rfl | hu), hd, hne⟩
    · exact hne rfl
    · exact h2 u ⟨hu, hd⟩

theorem padOk_set_dead (pad : PlayersAliveDead) (ps : List (String × Player))
    (k : String) (hk : (alookup ps k).isSome = true) (h : padOk pad ps) :
    padOk (pad.set_dead k) ps := by
  obtain ⟨h1, h2⟩ := h
  constructor
  · intro u
    simp only [PlayersAliveDead.set_dead, mem_sinsert, mem_serase]
    constructor
    · rintro (⟨hu, _⟩ | (rfl | hu))
      · exact (h1 u).mp (Or.inl hu)
      · exact hk
      · exact (h1 u).mp (Or.inr hu)
    · intro hs
      rcases (h1 u).mpr hs with hu | hu
      · by_cases he : u = k
        · exact Or.inr (Or.inl he)
        · exact Or.inl ⟨hu, he⟩
      · exact Or.inr (Or.inr hu)
  · intro u
    simp only [PlayersAliveDead.set_dead, mem_sinsert, mem_serase]
    rintro ⟨⟨hu, hne⟩, (rfl | hd)⟩
    · exact hne rfl
    · exact h2 u ⟨hu, hd⟩

theorem padOk_ainsert (pad : PlayersAliveDead) (ps : List (String × Player))
    (k : String) (v : Player) (hk : (alookup ps k).isSome = true) (h : padOk pad ps) :
    padOk pad (ainsert ps k v) := by
  obtain ⟨h1, h2⟩ := h
  refine ⟨?_, h2⟩
  intro u
  rw [alookup_ainsert_isSome]
  constructor
  · intro hm
    exact Or.inr ((h1 u).mp hm)
  · rintro (rfl | hs)
    · exact (h1 u).mpr hk
    · exact (h1 u).mpr hs

theorem padOk_insert_new_alive (pad : PlayersAliveDead) (ps : List (String × Player))
    (k : String) (v : Player) (h : padOk pad ps) :
    padOk (pad.set_alive k) (ainsert ps k v) := by
  obtain ⟨h1, h2⟩ := h
  constructor
  · intro u
    simp only [PlayersAliveDead.set_alive, mem_sinsert, mem_serase]
    rw [alookup_ainsert_isSome]
    constructor
    · rintro ((rfl | hu) | ⟨hu, _⟩)
      · exact Or.inl rfl
      · exact Or.inr ((h1 u).mp (Or.inl hu))
      · exact Or.inr ((h1 u).mp (Or.inr hu))
    · rintro (rfl | hs)
      · exact Or.inl (Or.inl rfl)
      · rcases (h1 u).mpr hs with hu | hu
        · exact Or.inl (Or.inr hu)
        · by_cases he : u = k
          · exact Or.inl (Or.inl he)
          · exact Or.inr ⟨hu, he⟩
  · intro u
    simp only [PlayersAliveDead.set_alive, mem_sinsert, mem_serase]
    rintro ⟨(rfl | hu), hd, hne⟩
    · exact hne rfl
    · exact h2 u ⟨hu, hd⟩

theorem padOk_congr (pad : PlayersAliveDead) (ps ps' : List (String × Player))
    (hs : ∀ u, (alookup ps' u).isSome = (alookup ps u).isSome) (h : padOk pad ps) :
    padOk pad ps' := by
  obtain ⟨h1, h2⟩ := h
  exact ⟨fun u => (hs u) ▸ h1 u, h2⟩

theorem keyOk_ainsert (ps : List (String × Player)) (k : String) (v : Player)
    (hv : v.user_id = k) (h : keyOk ps) : keyOk (ainsert ps k v) := by
  intro k' p' hp'
  rw [alookup_ainsert_cases] at hp'
  by_cases he : k' = k
  · rw [if_pos he] at hp'
    cases hp'
    rw [hv, he]
  · rw [if_neg he] at hp'
    exact h k' p' hp'

/-- Key/owner preservation relation between an old and a new players entry. -/
def keyRel (kp kp' : String × Player) : Prop :=
  kp'.1 = kp.1 ∧ kp'.2.user_id = kp.2.user_id

theorem alookup_of_forall2 (ps ps' : List (String × Player))
    (h : List.Forall₂ keyRel ps ps') (k : String) :
    ((alookup ps' k).isSome = (alookup ps k).isSome) ∧
    (∀ p', alookup ps' k = some p' →
      ∃ p, alookup ps k = some p ∧ p'.user_id = p.user_id) := by
  induction h with
  | nil => exact ⟨rfl, fun p' hp' => by cases hp'⟩
  | @cons a b l1 l2 hab hrest ih =>
    obtain ⟨hk, hu⟩ := hab
    by_cases he : a.1 = k
    · subst he
      constructor
      · show (alookup (b :: l2) a.1).isSome = (alookup (a :: l1) a.1).isSome
        simp [alookup, hk]
      · intro p' hp'
        simp only [alookup, hk, if_pos rfl] at hp'
        refine ⟨a.2, ?_, ?_⟩
        · simp [alookup]
        · cases hp'; exact hu
    · constructor
      · show (alookup (b :: l2) k).isSome = (alookup (a :: l1) k).isSome
        simp only [alookup, hk, if_neg he]
        exact (ih).1
      · intro p' hp'
        simp only [alookup, hk, if_neg he] at hp'
        obtain ⟨p, hp, hup⟩ := (ih).2 p' hp'
        exact ⟨p, by simp only [alookup, if_neg he]; exact hp, hup⟩

theorem keyOk_of_forall2 (ps ps' : List (String × Player))
    (h : List.Forall₂ keyRel ps ps') (hko : keyOk ps) : keyOk ps' := by
  intro k p' hp'
  obtain ⟨p, hp, hup⟩ := (alookup_of_forall2 ps ps' h k).2 p' hp'
  rw [hup]
  exact hko k p hp

theorem padOk_of_forall2 (pad : PlayersAliveDead) (ps ps' : List (String × Player))
    (h : List.Forall₂ keyRel ps ps') (hp : padOk pad ps) : padOk pad ps' :=
  padOk_congr pad ps ps' (fun u => (alookup_of_forall2 ps ps' h u).1) hp

theorem clone_player_lookup (g : Game) (pid : String) (p : Player)
    (h : g.clone_player pid = .ok p) : alookup g.players pid = some p := by
  unfold Game.clone_player at h
  split at h
  · cases h; assumption
  · cases h

theorem check_for_end_phase_move_shape (g : Game) (pid : String) (g2 : Game)
    (h : g.check_for_end_phase_move pid = .ok g2) :
    g2.players = g.players ∧ g2.players_alive_dead = g.players_alive_dead := by
  unfold Game.check_for_end_phase_move at h
  repeat' split at h
  all_goals cases h
  all_goals exact ⟨rfl, rfl⟩

theorem move_stage_user_id (g : Game) (pf : Player) (walk : MoveAction) (pf2 : Player)
    (h : g.move_stage pf walk = .ok pf2) : pf2.user_id = pf.user_id := by
  unfold Game.move_stage at h
  repeat' split at h
  all_goals cases h
  all_goals rfl

theorem arm_move_shape (g : Game) (uid : String) (pf : Player) (walk : MoveAction)
    (ev : ActionTypeEvent) (pf' : Player) (g1 : Game)
    (apu : List (String × String × Nat)) (pad : Option PlayersAliveDead)
    (h : g.arm_move uid pf walk = .ok (ev, pf', g1, apu, pad)) :
    g1.players = g.players ∧ g1.players_alive_dead = g.players_alive_dead ∧
    pf'.user_id = pf.user_id := by
  unfold Game.arm_move at h
  repeat' split at h
  all_goals try cases h
  all_goals refine ⟨rfl, rfl, ?_⟩
  all_goals rename_i x1 pf2 hstage x2 b1 hvac
  all_goals exact move_stage_user_id g pf walk pf2 hstage

theorem arm_range_upgrade_shape (g : Game) (pf : Player) (ru : RangeUpgradeAction)
    (ev : ActionTypeEvent) (pf' : Player) (g1 : Game)
    (apu : List (String × String × Nat)) (pad : Option PlayersAliveDead)
    (h : g.arm_range_upgrade pf ru = .ok (ev, pf', g1, apu, pad)) :
    g1 = g ∧ pf'.user_id = pf.user_id := by
  unfold Game.arm_range_upgrade at h
  repeat' split at h
  all_goals cases h
  all_goals exact ⟨rfl, rfl⟩

theorem arm_heal_shape (g : Game) (pf : Player) (heal : HealAction)
    (ev : ActionTypeEvent) (pf' : Player) (g1 : Game)
    (apu : List (String × String × Nat)) (pad : Option PlayersAliveDead)
    (h : g.arm_heal pf heal = .ok (ev, pf', g1, apu, pad)) :
    g1 = g ∧ pf'.user_id = pf.user_id := by
  unfold Game.arm_heal at h
  repeat' split at h
  all_goals cases h
  all_goals exact ⟨rfl, rfl⟩

theorem arm_curse_shape (g : Game) (uid : String) (pf : Player) (curse : CurseAction)
    (ev : ActionTypeEvent) (pf' : Player) (g1 : Game)
    (apu : List (String × String × Nat)) (pad : Option PlayersAliveDead)
    (h : g.arm_curse uid pf curse = .ok (ev, pf', g1, apu, pad)) :
    g1.players = g.players ∧ g1.players_alive_dead = g.players_alive_dead ∧
    pf'.user_id = pf.user_id := by
  unfold Game.arm_curse at h
  repeat' split at h
  all_goals cases h
  all_goals exact ⟨rfl, rfl, rfl⟩

theorem arm_give_shape (g : Game) (uid : String) (pf : Player) (give : GiveAction)
    (ev : ActionTypeEvent) (pf' : Player) (g1 : Game)
    (apu : List (String × String × Nat)) (pad : Option PlayersAliveDead)
    (h : g.arm_give uid pf give = .ok (ev, pf', g1, apu, pad)) :
    ∃ tkey t v, alookup g.players tkey = some t ∧ v.user_id = t.user_id ∧
      g1.players = ainsert g.players t.user_id v ∧
      g1.players_alive_dead = g.players_alive_dead ∧
      pf'.user_id = pf.user_id := by
  unfold Game.arm_give at h
  cases hc : g.check_in_prog with
  | error e => rw [hc] at h; cases h
  | ok u =>
    rw [hc] at h
    dsimp only at h
    by_cases hs : uid = give.target_user_id
    · rw [if_pos hs] at h; cases h
    · rw [if_neg hs] at h
      cases ha : pf.is_alive with
      | error e => rw [ha] at h; cases h
      | ok _ =>
        rw [ha] at h
        dsimp only at h
        cases hcl : g.clone_player give.target_user_id with
        | error e => rw [hcl] at h; cases h
        | ok t0 =>
          rw [hcl] at h
          dsimp only at h
          cases hta : t0.is_alive with
          | error e => rw [hta] at h; cases h
          | ok _ =>
            rw [hta] at h
            dsimp only at h
            cases hm : pf.moveable_in_prog t0.pos with
            | error e => rw [hm] at h; cases h
            | ok _ =>
              rw [hm] at h
              dsimp only at h
              cases h
              exact ⟨give.target_user_id, t0,
                { t0 with action_points := t0.action_points + 1 },
                clone_player_lookup g _ t0 hcl, rfl, rfl, rfl, rfl⟩

theorem attack_resolve_shape (g : Game) (pf tf : Player) :
    (g.attack_resolve pf tf).1.user_id = pf.user_id ∧
    (g.attack_resolve pf tf).2.1.user_id = tf.user_id ∧
    (g.attack_resolve pf tf).2.2.1.players = g.players ∧
    ((g.attack_resolve pf tf).2.2.1.players_alive_dead = g.players_alive_dead ∨
      (g.attack_resolve pf tf).2.2.1.players_alive_dead =
        g.players_alive_dead.set_dead tf.user_id) := by
  unfold Game.attack_resolve
  by_cases h : tf.lives = 0
  · simp [h]
  · simp [h]

theorem arm_attack_shape (g : Game) (uid : String) (pf : Player) (attack : AttackAction)
    (ev : ActionTypeEvent) (pf' : Player) (g1 : Game)
    (apu : List (String × String × Nat)) (pad : Option PlayersAliveDead)
    (h : g.arm_attack uid pf attack = .ok (ev, pf', g1, apu, pad)) :
    ∃ tkey t v, alookup g.players tkey = some t ∧ v.user_id = t.user_id ∧
      g1.players = ainsert g.players t.user_id v ∧
      (g1.players_alive_dead = g.players_alive_dead ∨
        g1.players_alive_dead = g.players_alive_dead.set_dead t.user_id) ∧
      pf'.user_id = pf.user_id := by
  unfold Game.arm_attack at h
  cases hc : g.check_in_prog with
  | error e => rw [hc] at h; cases h
  | ok u =>
    rw [hc] at h
    dsimp only at h
    by_cases hs : uid = attack.target_user_id
    · rw [if_pos hs] at h; cases h
    · rw [if_neg hs] at h
      cases ha : pf.is_alive with
      | error e => rw [ha] at h; cases h
      | ok _ =>
        rw [ha] at h
        dsimp only at h
        cases hcl : g.clone_player attack.target_user_id with
        | error e => rw [hcl] at h; cases h
        | ok t0 =>
          rw [hcl] at h
          dsimp only at h
          cases hta : t0.is_alive with
          | error e => rw [hta] at h; cases h
          | ok _ =>
            rw [hta] at h
            dsimp only at h
            cases hm : pf.moveable_in_prog t0.pos with
            | error e => rw [hm] at h; cases h
            | ok _ =>
              rw [hm] at h
              dsimp only at h
              by_cases hle : ¬ (attack.lives_effect = ATTACK_LIVES_EFFECT)
              · rw [if_pos hle] at h; cases h
              · rw [if_neg hle] at h
                rcases hres : g.attack_resolve
                    { pf with action_points := pf.action_points - ATTACK_COST }
                    { t0 with lives := t0.lives - ATTACK_LIVES_EFFECT }
                  with ⟨pf2, tf2, g1r, apur, padr⟩
                rw [hres] at h
                dsimp only at h
                have hshape := attack_resolve_shape g
                  { pf with action_points := pf.action_points - ATTACK_COST }
                  { t0 with lives := t0.lives - ATTACK_LIVES_EFFECT }
                rw [hres] at hshape
                obtain ⟨hru, hrtu, hrp, hrpad⟩ := hshape
                cases hchk : g1r.check_for_end_phase_move tf2.user_id with
                | error e => rw [hchk] at h; cases h
                | ok g2c =>
                  rw [hchk] at h
                  dsimp only at h
                  obtain ⟨hcp, hcpad⟩ := check_for_end_phase_move_shape g1r _ g2c hchk
                  cases h
                  refine ⟨attack.target_user_id, t0, tf2,
                    clone_player_lookup g _ t0 hcl, hrtu, ?_, ?_, hru⟩
                  · show ainsert g2c.players tf2.user_id tf2 = _
                    rw [hcp, hrp, hrtu]
                  · rw [hcpad]
                    rcases hrpad with hrpad | hrpad
                    · exact Or.inl hrpad
                    · exact Or.inr hrpad

theorem arm_revive_shape (g : Game) (uid : String) (pf : Player) (rev : ReviveAction)
    (ev : ActionTypeEvent) (pf' : Player) (g1 : Game)
    (apu : List (String × String × Nat)) (pad : Option PlayersAliveDead)
    (h : g.arm_revive uid pf rev = .ok (ev, pf', g1, apu, pad)) :
    ∃ tkey t v, alookup g.players tkey = some t ∧ v.user_id = t.user_id ∧
      g1.players = ainsert g.players t.user_id v ∧
      (g1.players_alive_dead = g.players_alive_dead.set_alive t.user_id ∨
        g1.players_alive_dead =
          (g.players_alive_dead.set_alive t.user_id).set_dead pf.user_id) ∧
      pf'.user_id = pf.user_id := by
  unfold Game.arm_revive at h
  cases hc : g.check_in_prog with
  | error e => rw [hc] at h; cases h
  | ok u =>
    rw [hc] at h
    dsimp only at h
    by_cases hs : uid = rev.target_user_id
    · rw [if_pos hs] at h; cases h
    · rw [if_neg hs] at h
      cases ha : pf.is_alive with
      | error e => rw [ha] at h; cases h
      | ok _ =>
        rw [ha] at h
        dsimp only at h
        cases hcl : g.clone_player rev.target_user_id with
        | error e => rw [hcl] at h; cases h
        | ok t0 =>
          rw [hcl] at h
          dsimp only at h
          cases htd : t0.is_dead with
          | error e => rw [htd] at h; cases h
          | ok _ =>
            rw [htd] at h
            dsimp only at h
            rcases hres : revive_resolve { pf with lives := pf.lives - 1 }
                (g.players_alive_dead.set_alive t0.user_id)
                (g.curse_election.convert_voter t0.user_id)
              with ⟨pad2, el2⟩
            rw [hres] at h
            dsimp only at h
            have hshape : pad2 = g.players_alive_dead.set_alive t0.user_id ∨
                pad2 = (g.players_alive_dead.set_alive t0.user_id).set_dead pf.user_id := by
              unfold revive_resolve at hres
              split at hres
              · cases hres
                exact Or.inr rfl
              · cases hres
                exact Or.inl rfl
            cases h
            exact ⟨rev.target_user_id, t0, { t0 with lives := t0.lives + 1 },
              clone_player_lookup g _ t0 hcl, rfl, rfl, hshape, rfl⟩

theorem inv_map_values (pad : PlayersAliveDead) (ps : List (String × Player))
    (F : String × Player → Player) (hF : ∀ kv, (F kv).user_id = kv.2.user_id)
    (hp : padOk pad ps) (hk : keyOk ps) :
    padOk pad (ps.map (fun kv => (kv.1, F kv))) ∧
    keyOk (ps.map (fun kv => (kv.1, F kv))) := by
  constructor
  · apply padOk_congr pad ps _ _ hp
    intro u
    rw [alookup_map_entry]
    cases alookup ps u <;> rfl
  · intro k p' hp'
    rw [alookup_map_entry] at hp'
    cases hv : alookup ps k with
    | none => rw [hv] at hp'; cases hp'
    | some v =>
      rw [hv] at hp'
      cases hp'
      rw [hF (k, v)]
      exact hk k v hv

theorem init_place_user_id (g : Game) (player : Player) (rolls : List Pos)
    (p2 : Player) (b2 : Board String) (r2 : List Pos)
    (h : g.init_place player rolls = some (p2, b2, r2)) :
    p2.user_id = player.user_id := by
  unfold Game.init_place at h
  split at h
  · exact (randomly_position_spec player g.board rolls p2 b2 r2 h).1
  · cases h; rfl

theorem insert_player_inv (g : Game) (uid : String) (rolls : List Pos)
    (r : InsertPlayerResult) (g' : Game) (rolls' : List Pos)
    (h : g.insert_player uid rolls = some (.ok (r, g', rolls')))
    (hinv : gameInv g) : gameInv g' := by
  obtain ⟨hpad, hkey⟩ := hinv
  unfold Game.insert_player at h
  split at h
  · cases h; exact ⟨hpad, hkey⟩
  · split at h
    · split at h
      · cases h
      · dsimp only at h
        cases hip : g.init_place { Player.new uid g.game_id with
            lives := g.config.init_lives,
            action_points := g.config.init_action_points,
            range := g.config.init_range } rolls with
        | none => rw [hip] at h; cases h
        | some t =>
          obtain ⟨p2, b2, r2⟩ := t
          rw [hip] at h
          dsimp only at h
          cases h
          have hu : p2.user_id = uid := init_place_user_id g _ rolls _ _ _ hip
          constructor
          · show padOk (g.players_alive_dead.set_alive uid) (ainsert g.players uid p2)
            exact padOk_insert_new_alive _ _ _ _ hpad
          · show keyOk (ainsert g.players uid p2)
            exact keyOk_ainsert _ _ _ hu hkey
    · cases h

theorem configure_reposition_rel :
    ∀ ps (board : Board String) rolls acc ps' b' r' acc',
      configure_reposition ps board rolls acc = some (ps', b', r', acc') →
      List.Forall₂ keyRel ps ps' := by
  intro ps
  induction ps with
  | nil =>
    intro board rolls acc ps' b' r' acc' h
    cases h
    exact .nil
  | cons kp rest ih =>
    obtain ⟨k, p⟩ := kp
    intro board rolls acc ps' b' r' acc' h
    simp only [configure_reposition] at h
    cases hrp : randomly_position p board rolls with
    | none => rw [hrp] at h; cases h
    | some t =>
      obtain ⟨p1, b1, r1⟩ := t
      rw [hrp] at h
      dsimp only at h
      cases hcr : configure_reposition rest b1 r1
          (if p.pos ≠ p1.pos then ainsert acc p.pos.key p1.user_id else acc) with
      | none => rw [hcr] at h; cases h
      | some t2 =>
        obtain ⟨ps2, b2, r2, acc2⟩ := t2
        rw [hcr] at h
        cases h
        exact List.Forall₂.cons
          ⟨rfl, (randomly_position_spec p board rolls p1 b1 r1 hrp).1⟩
          (ih _ _ _ _ _ _ _ hcr)

theorem configure_inv (g : Game) (conf : ConfigGameOp) (rolls : List Pos)
    (res : Option (List (String × String))) (g' : Game) (rolls' : List Pos)
    (h : g.configure conf rolls = some (.ok (res, g', rolls')))
    (hinv : gameInv g) : gameInv g' := by
  obtain ⟨hpad, hkey⟩ := hinv
  unfold Game.configure at h
  split at h
  · cases h
  · cases conf with
    | TurnTimeSecs v =>
      dsimp only at h
      split at h
      · cases h
      · split at h
        · cases h
        · cases h; exact ⟨hpad, hkey⟩
    | MaxPlayers v =>
      dsimp only at h
      split at h
      · cases h
      · split at h
        · cases h
        · cases h; exact ⟨hpad, hkey⟩
    | BoardSize v =>
      dsimp only at h
      split at h
      · cases h
      · cases h; exact ⟨hpad, hkey⟩
    | InitActPts v =>
      dsimp only at h
      cases h
      exact inv_map_values _ _ _ (fun kv => rfl) hpad hkey
    | InitLives v =>
      dsimp only at h
      cases h
      exact inv_map_values _ _ _ (fun kv => rfl) hpad hkey
    | InitRange v =>
      dsimp only at h
      cases h
      exact inv_map_values _ _ _ (fun kv => rfl) hpad hkey
    | InitPos v =>
      dsimp only at h
      cases v with
      | Manual => cases h; exact ⟨hpad, hkey⟩
      | Random =>
        dsimp only at h
        cases hcr : configure_reposition g.players g.board rolls [] with
        | none => rw [hcr] at h; cases h
        | some t =>
          obtain ⟨ps2, b2, r2, acc2⟩ := t
          rw [hcr] at h
          dsimp only at h
          have hrel := configure_reposition_rel g.players g.board rolls [] ps2 b2 r2 acc2 hcr
          split at h
          · cases h
            exact ⟨padOk_of_forall2 _ _ _ hrel hpad, keyOk_of_forall2 _ _ hrel hkey⟩
          · cases h
            exact ⟨padOk_of_forall2 _ _ _ hrel hpad, keyOk_of_forall2 _ _ hrel hkey⟩

theorem start_game_inv (g : Game) (rolls : List Pos) (now : Nat) (g' : Game)
    (h : g.start_game rolls now = some (.ok g')) (hinv : gameInv g) : gameInv g' := by
  obtain ⟨hpad, hkey⟩ := hinv
  unfold Game.start_game at h
  split at h
  · cases h
  · split at h
    · cases h
    · cases hpl : start_game_place g.players g.board rolls with
      | none => rw [hpl] at h; cases h
      | some t =>
        obtain ⟨ps, b, r⟩ := t
        rw [hpl] at h
        dsimp only at h
        cases h
        have hrel := (start_game_place_spec g.players g.board rolls ps b r hpl).2.2
        have hrel2 : List.Forall₂ keyRel g.players ps :=
          hrel.imp (fun a b hab => ⟨hab.1, hab.2.1⟩)
        exact ⟨padOk_of_forall2 _ _ _ hrel2 hpad, keyOk_of_forall2 _ _ hrel2 hkey⟩

theorem replenish_inv (g : Game) (now : Nat) (apu : List (String × String × Nat))
    (g' : Game) (h : g.replenish now = .ok (apu, g')) (hinv : gameInv g) : gameInv g' := by
  obtain ⟨hpad, hkey⟩ := hinv
  unfold Game.replenish at h
  split at h
  · cases h
  · rcases hr : g.curse_election.redeem with ⟨cursed, el⟩
    rw [hr] at h
    dsimp only at h
    cases h
    have := inv_map_values g.players_alive_dead g.players
      (fun kv => if kv.2.user_id ∉ cursed ∧ kv.2.lives > 0 then
        { kv.2 with action_points := kv.2.action_points + 1 } else kv.2)
      (fun kv => by dsimp only; split <;> rfl) hpad hkey
    constructor
    · show padOk g.players_alive_dead
        (g.players.map (fun kv => if kv.2.user_id ∉ cursed ∧ kv.2.lives > 0 then
          (kv.1, { kv.2 with action_points := kv.2.action_points + 1 }) else kv))
      rw [replenish_players_map_eq]
      exact this.1
    · show keyOk
        (g.players.map (fun kv => if kv.2.user_id ∉ cursed ∧ kv.2.lives > 0 then
          (kv.1, { kv.2 with action_points := kv.2.action_points + 1 }) else kv))
      rw [replenish_players_map_eq]
      exact this.2

theorem heart_effects_inv (g1 : Game) (player : Player)
    (hmem : (alookup g1.players player.user_id).isSome = true)
    (hp : padOk g1.players_alive_dead g1.players) (hk : keyOk g1.players) :
    padOk (g1.heart_effects player).2.2.players_alive_dead
      (g1.heart_effects player).2.2.players ∧
    keyOk (g1.heart_effects player).2.2.players := by
  unfold Game.heart_effects
  split
  · exact ⟨padOk_set_alive _ _ _ hmem hp, hk⟩
  · exact ⟨hp, hk⟩

theorem game_action_inv (g : Game) (a : ActionTypeEvent) (obj : String)
    (hinv : gameInv g) : gameInv (g.game_action a obj).2 := by
  obtain ⟨hpad, hkey⟩ := hinv
  unfold Game.game_action
  cases a with
  | Move m =>
    dsimp only
    split
    · exact ⟨hpad, hkey⟩
    · split
      · split
        · exact ⟨hpad, hkey⟩
        · rename_i pid hpid xo player hplayer
          split
          · rcases heff : Game.heart_effects
                { g with object_board :=
                    object_board_decrement g.object_board m.from_.key obj } player
              with ⟨actionEv, padOpt, g2⟩
            have hmem : (alookup g.players player.user_id).isSome = true := by
              rw [hkey pid player hplayer, hplayer]
              rfl
            have hinv2 := heart_effects_inv
              { g with object_board :=
                  object_board_decrement g.object_board m.from_.key obj }
              player hmem hpad hkey
            rw [heff] at hinv2
            exact hinv2
          · exact ⟨hpad, hkey⟩
      · exact ⟨hpad, hkey⟩
  | Attack a => exact ⟨hpad, hkey⟩
  | Give a => exact ⟨hpad, hkey⟩
  | RangeUpgrade a => exact ⟨hpad, hkey⟩
  | Heal a => exact ⟨hpad, hkey⟩
  | Revive a => exact ⟨hpad, hkey⟩
  | Curse a => exact ⟨hpad, hkey⟩

theorem player_action_inv (g : Game) (uid : String) (a : ActionType)
    (r : PlayerActionResponse × GameStateResult × Game)
    (h : g.player_action uid a = .ok r) (hinv : gameInv g) : gameInv r.2.2 := by
  obtain ⟨hpad, hkey⟩ := hinv
  unfold Game.player_action at h
  split at h
  · cases h
  · cases hcl : g.clone_player uid with
    | error e => rw [hcl] at h; cases h
    | ok pf0 =>
      rw [hcl] at h
      dsimp only at h
      have hpf0 : alookup g.players uid = some pf0 := clone_player_lookup g uid pf0 hcl
      have hpf0u : pf0.user_id = uid := hkey uid pf0 hpf0
      have huid_some : (alookup g.players uid).isSome = true := by rw [hpf0]; rfl
      cases a with
      | Move walk =>
        dsimp only at h
        cases harm : g.arm_move uid pf0 walk with
        | error e => rw [harm] at h; cases h
        | ok t5 =>
          obtain ⟨ev, pf', g1, apu, padO⟩ := t5
          rw [harm] at h
          dsimp only at h
          cases h
          obtain ⟨hp1, hp2, hp3⟩ := arm_move_shape g uid pf0 walk ev pf' g1 apu padO harm
          constructor
          · show padOk g1.players_alive_dead (ainsert g1.players pf'.user_id pf')
            rw [hp1, hp2, hp3, hpf0u]
            exact padOk_ainsert _ _ _ _ huid_some hpad
          · show keyOk (ainsert g1.players pf'.user_id pf')
            rw [hp1]
            exact keyOk_ainsert _ _ _ rfl hkey
      | RangeUpgrade ru =>
        dsimp only at h
        cases harm : g.arm_range_upgrade pf0 ru with
        | error e => rw [harm] at h; cases h
        | ok t5 =>
          obtain ⟨ev, pf', g1, apu, padO⟩ := t5
          rw [harm] at h
          dsimp only at h
          cases h
          obtain ⟨hp1, hp3⟩ := arm_range_upgrade_shape g pf0 ru ev pf' g1 apu padO harm
          constructor
          · show padOk g1.players_alive_dead (ainsert g1.players pf'.user_id pf')
            rw [hp1, hp3, hpf0u]
            exact padOk_ainsert _ _ _ _ huid_some hpad
          · show keyOk (ainsert g1.players pf'.user_id pf')
            rw [hp1]
            exact keyOk_ainsert _ _ _ rfl hkey
      | Heal heal =>
        dsimp only at h
        cases harm : g.arm_heal pf0 heal with
        | error e => rw [harm] at h; cases h
        | ok t5 =>
          obtain ⟨ev, pf', g1, apu, padO⟩ := t5
          rw [harm] at h
          dsimp only at h
          cases h
          obtain ⟨hp1, hp3⟩ := arm_heal_shape g pf0 heal ev pf' g1 apu padO harm
          constructor
          · show padOk g1.players_alive_dead (ainsert g1.players pf'.user_id pf')
            rw [hp1, hp3, hpf0u]
            exact padOk_ainsert _ _ _ _ huid_some hpad
          · show keyOk (ainsert g1.players pf'.user_id pf')
            rw [hp1]
            exact keyOk_ainsert _ _ _ rfl hkey
      | Curse curse =>
        dsimp only at h
        cases harm : g.arm_curse uid pf0 curse with
        | error e => rw [harm] at h; cases h
        | ok t5 =>
          obtain ⟨ev, pf', g1, apu, padO⟩ := t5
          rw [harm] at h
          dsimp only at h
          cases h
          obtain ⟨hp1, hp2, hp3⟩ := arm_curse_shape g uid pf0 curse ev pf' g1 apu padO harm
          constructor
          · show padOk g1.players_alive_dead (ainsert g1.players pf'.user_id pf')
            rw [hp1, hp2, hp3, hpf0u]
            exact padOk_ainsert _ _ _ _ huid_some hpad
          · show keyOk (ainsert g1.players pf'.user_id pf')
            rw [hp1]
            exact keyOk_ainsert _ _ _ rfl hkey
      | Give give =>
        dsimp only at h
        cases harm : g.arm_give uid pf0 give with
        | error e => rw [harm] at h; cases h
        | ok t5 =>
          obtain ⟨ev, pf', g1, apu, padO⟩ := t5
          rw [harm] at h
          dsimp only at h
          cases h
          obtain ⟨tkey, t, v, ht, hvu, hp1, hp2, hp3⟩ :=
            arm_give_shape g uid pf0 give ev pf' g1 apu padO harm
          have htu : t.user_id = tkey := hkey tkey t ht
          have ht_some : (alookup g.players t.user_id).isSome = true := by
            rw [htu, ht]; rfl
          have hmid : padOk g1.players_alive_dead (ainsert g.players t.user_id v) := by
            rw [hp2]
            exact padOk_ainsert _ _ _ _ ht_some hpad
          have hkey1 : keyOk (ainsert g.players t.user_id v) :=
            keyOk_ainsert _ _ _ hvu hkey
          have hsome1 : (alookup (ainsert g.players t.user_id v) pf'.user_id).isSome
              = true :=
            (alookup_ainsert_isSome _ _ _ _).mpr
              (Or.inr (by rw [hp3, hpf0u]; exact huid_some))
          constructor
          · show padOk g1.players_alive_dead (ainsert g1.players pf'.user_id pf')
            rw [hp1]
            exact padOk_ainsert _ _ _ _ hsome1 hmid
          · show keyOk (ainsert g1.players pf'.user_id pf')
            rw [hp1]
            exact keyOk_ainsert _ _ _ rfl hkey1
      | Attack attack =>
        dsimp only at h
        cases harm : g.arm_attack uid pf0 attack with
        | error e => rw [harm] at h; cases h
        | ok t5 =>
          obtain ⟨ev, pf', g1, apu, padO⟩ := t5
          rw [harm] at h
          dsimp only at h
          cases h
          obtain ⟨tkey, t, v, ht, hvu, hp1, hp2, hp3⟩ :=
            arm_attack_shape g uid pf0 attack ev pf' g1 apu padO harm
          have htu : t.user_id = tkey := hkey tkey t ht
          have ht_some : (alookup g.players t.user_id).isSome = true := by
            rw [htu, ht]; rfl
          have hmid : padOk g1.players_alive_dead (ainsert g.players t.user_id v) := by
            rcases hp2 with hp2 | hp2 <;> rw [hp2]
            · exact padOk_ainsert _ _ _ _ ht_some hpad
            · exact padOk_ainsert _ _ _ _ ht_some (padOk_set_dead _ _ _ ht_some hpad)
          have hkey1 : keyOk (ainsert g.players t.user_id v) :=
            keyOk_ainsert _ _ _ hvu hkey
          have hsome1 : (alookup (ainsert g.players t.user_id v) pf'.user_id).isSome
              = true :=
            (alookup_ainsert_isSome _ _ _ _).mpr
              (Or.inr (by rw [hp3, hpf0u]; exact huid_some))
          constructor
          · show padOk g1.players_alive_dead (ainsert g1.players pf'.user_id pf')
            rw [hp1]
            exact padOk_ainsert _ _ _ _ hsome1 hmid
          · show keyOk (ainsert g1.players pf'.user_id pf')
            rw [hp1]
            exact keyOk_ainsert _ _ _ rfl hkey1
      | Revive rev =>
        dsimp only at h
        cases harm : g.arm_revive uid pf0 rev with
        | error e => rw [harm] at h; cases h
        | ok t5 =>
          obtain ⟨ev, pf', g1, apu, padO⟩ := t5
          rw [harm] at h
          dsimp only at h
          cases h
          obtain ⟨tkey, t, v, ht, hvu, hp1, hp2, hp3⟩ :=
            arm_revive_shape g uid pf0 rev ev pf' g1 apu padO harm
          have htu : t.user_id = tkey := hkey tkey t ht
          have ht_some : (alookup g.players t.user_id).isSome = true := by
            rw [htu, ht]; rfl
          have hpf0_some : (alookup g.players pf0.user_id).isSome = true := by
            rw [hpf0u]; exact huid_some
          have hmid : padOk g1.players_alive_dead (ainsert g.players t.user_id v) := by
            rcases hp2 with hp2 | hp2 <;> rw [hp2]
            · exact padOk_ainsert _ _ _ _ ht_some (padOk_set_alive _ _ _ ht_some hpad)
            · exact padOk_ainsert _ _ _ _ ht_some
                (padOk_set_dead _ _ _ hpf0_some (padOk_set_alive _ _ _ ht_some hpad))
          have hkey1 : keyOk (ainsert g.players t.user_id v) :=
            keyOk_ainsert _ _ _ hvu hkey
          have hsome1 : (alookup (ainsert g.players t.user_id v) pf'.user_id).isSome
              = true :=
            (alookup_ainsert_isSome _ _ _ _).mpr
              (Or.inr (by rw [hp3, hpf0u]; exact huid_some))
          constructor
          · show padOk g1.players_alive_dead (ainsert g1.players pf'.user_id pf')
            rw [hp1]
            exact padOk_ainsert _ _ _ _ hsome1 hmid
          · show keyOk (ainsert g1.players pf'.user_id pf')
            rw [hp1]
            exact keyOk_ainsert _ _ _ rfl hkey1

/-- One game-level operation as listed in claim C9, including the error
outcomes of `game_action` (which may still mutate the hearts board). -/
inductive GStep : Game → Game → Prop
  | insert_player (g : Game) (uid : String) (rolls : List Pos)
      (r : InsertPlayerResult) (g' : Game) (rolls' : List Pos) :
      g.insert_player uid rolls = some (.ok (r, g', rolls')) → GStep g g'
  | configure (g : Game) (conf : ConfigGameOp) (rolls : List Pos)
      (res : Option (List (String × String))) (g' : Game) (rolls' : List Pos) :
      g.configure conf rolls = some (.ok (res, g', rolls')) → GStep g g'
  | start_game (g : Game) (rolls : List Pos) (now : Nat) (g' : Game) :
      g.start_game rolls now = some (.ok g') → GStep g g'
  | player_action (g : Game) (uid : String) (a : ActionType)
      (r : PlayerActionResponse × GameStateResult × Game) :
      g.player_action uid a = .ok r → GStep g r.2.2
  | replenish (g : Game) (now : Nat) (apu : List (String × String × Nat))
      (g' : Game) : g.replenish now = .ok (apu, g') → GStep g g'
  | game_action (g : Game) (a : ActionTypeEvent) (obj : String) :
      GStep g (g.game_action a obj).2

/-- Game states reachable from a newly created game through the operations of
claim C9. -/
inductive GReachable : Game → Prop
  | base (game_id : String) (size : Nat) : GReachable (Game.new game_id size)
  | step (g g' : Game) : GReachable g → GStep g g' → GReachable g'

theorem gameInv_new (game_id : String) (size : Nat) : gameInv (Game.new game_id size) := by
  refine ⟨⟨?_, ?_⟩, ?_⟩
  · intro u
    simp [Game.new, PlayersAliveDead.new, alookup]
  · intro u
    simp [Game.new, PlayersAliveDead.new]
  · intro k p hp
    cases hp

theorem gameInv_step (g g' : Game) (hs : GStep g g') (hinv : gameInv g) : gameInv g' := by
  cases hs with
  | insert_player uid rolls r g2 rolls' h => exact insert_player_inv _ _ _ _ _ _ h hinv
  | configure conf rolls res g2 rolls' h => exact configure_inv _ _ _ _ _ _ h hinv
  | start_game rolls now g2 h => exact start_game_inv _ _ _ _ h hinv
  | player_action uid a r h => exact player_action_inv _ _ _ _ h hinv
  | replenish now apu g2 h => exact replenish_inv _ _ _ _ h hinv
  | game_action a obj => exact game_action_inv _ a obj hinv

/-- C9: in every game state reachable from a new game through `insert_player`,
`configure`, `start_game`, `player_action`, `replenish` and `game_action`, the
alive and dead sets are disjoint and their union is exactly the key set of the
players map. -/
theorem alive_dead_partition (g : Game) (h : GReachable g) :
    (∀ u, (u ∈ g.players_alive_dead.alive ∨ u ∈ g.players_alive_dead.dead) ↔
      (alookup g.players u).isSome = true) ∧
    (∀ u, ¬ (u ∈ g.players_alive_dead.alive ∧ u ∈ g.players_alive_dead.dead)) := by
  have hinv : gameInv g := by
    induction h with
    | base gid size => exact gameInv_new gid size
    | step g g' hr hs ih => exact gameInv_step g g' hs ih
  exact hinv.1

/-- C9 witness: the invariant instantiated at a concrete reachable state, the
freshly created game. -/
theorem alive_dead_partition_witness :
    (∀ u, (u ∈ (Game.new "G" 10).players_alive_dead.alive ∨
        u ∈ (Game.new "G" 10).players_alive_dead.dead) ↔
      (alookup (Game.new "G" 10).players u).isSome = true) ∧
    (∀ u, ¬ (u ∈ (Game.new "G" 10).players_alive_dead.alive ∧
        u ∈ (Game.new "G" 10).players_alive_dead.dead)) :=
  alive_dead_partition (Game.new "G" 10) (GReachable.base "G" 10)

end Bftt
